import Mathlib

/-!
Shallow embedding of the Shopify/Calendly/Klaviyo webhook-handler repository.

Three handler variants occur in the sources:
* `handlerOrig`  - src/functions/shopify-webhook-handler.js (original Calendly
  variant; its elided helper bodies are marked "No changes to this function"
  and are those of the Calendly variant below).
* `handlerCal`   - first half of src/unnamed/part_000 (Calendly variant with
  the identity fallback chain and the empty-email guard).
* `handlerMeta`  - second half of src/unnamed/part_000 (metaobject-only,
  non-PII variant).

External HTTP responses, and the result of the JSON.parse library call, are
inputs (oracle fields of an environment record); everything the repository
itself computes is embedded directly.
-/

/- ===== JS strings and byte sequences ===== -/

/-- A JavaScript string, as its sequence of UTF-16 code units. -/
abbrev CodeUnits := List Nat

/-- A byte sequence. -/
abbrev Bytes := List Nat

/-- UTF-8 encoding of a single Unicode code point (1 to 4 bytes). -/
def utf8EncodeChar (c : Nat) : Bytes :=
  if c < 128 then [c]
  else if c < 2048 then [192 + c / 64, 128 + c % 64]
  else if c < 65536 then [224 + c / 4096, 128 + (c / 64) % 64, 128 + c % 64]
  else [240 + c / 262144, 128 + (c / 4096) % 64, 128 + (c / 64) % 64, 128 + c % 64]

/-- UTF-16 code units to UTF-8 bytes, with Node Buffer semantics for
`'utf8'` conversion: an unpaired surrogate code unit is replaced by
U+FFFD (bytes 239 191 189). This is what
`crypto.createHmac(...).update(body, 'utf8')` applies to the body string. -/
def utf16ToUtf8 : CodeUnits → Bytes
  | [] => []
  | c :: rest =>
    if c < 55296 || 57343 < c then utf8EncodeChar c ++ utf16ToUtf8 rest
    else if 56320 ≤ c then [239, 191, 189] ++ utf16ToUtf8 rest
    else
      match rest with
      | [] => [239, 191, 189]
      | c2 :: rest2 =>
        if 56320 ≤ c2 && c2 ≤ 57343 then
          utf8EncodeChar (65536 + (c - 55296) * 1024 + (c2 - 56320)) ++ utf16ToUtf8 rest2
        else [239, 191, 189] ++ utf16ToUtf8 (c2 :: rest2)

/- ===== SHA-256 (FIPS 180-4) ===== -/

/-- Truncate to a 32-bit word. -/
def w32 (x : Nat) : Nat := x % 4294967296

/-- 32-bit modular addition. -/
def wadd (a b : Nat) : Nat := (a + b) % 4294967296

/-- 32-bit right rotation. -/
def rotr (n x : Nat) : Nat := w32 ((x >>> n) ||| (x <<< (32 - n)))

def shaCh (x y z : Nat) : Nat := (x &&& y) ^^^ ((x ^^^ 4294967295) &&& z)

def shaMaj (x y z : Nat) : Nat := (x &&& y) ^^^ (x &&& z) ^^^ (y &&& z)

def bigSigma0 (x : Nat) : Nat := rotr 2 x ^^^ rotr 13 x ^^^ rotr 22 x

def bigSigma1 (x : Nat) : Nat := rotr 6 x ^^^ rotr 11 x ^^^ rotr 25 x

def smallSigma0 (x : Nat) : Nat := rotr 7 x ^^^ rotr 18 x ^^^ (x >>> 3)

def smallSigma1 (x : Nat) : Nat := rotr 17 x ^^^ rotr 19 x ^^^ (x >>> 10)

/-- The 64 SHA-256 round constants (FIPS 180-4 section 4.2.2, in decimal). -/
def shaK : List Nat :=
  [1116352408, 1899447441, 3049323471, 3921009573,
   961987163, 1508970993, 2453635748, 2870763221,
   3624381080, 310598401, 607225278, 1426881987,
   1925078388, 2162078206, 2614888103, 3248222580,
   3835390401, 4022224774, 264347078, 604807628,
   770255983, 1249150122, 1555081692, 1996064986,
   2554220882, 2821834349, 2952996808, 3210313671,
   3336571891, 3584528711, 113926993, 338241895,
   666307205, 773529912, 1294757372, 1396182291,
   1695183700, 1986661051, 2177026350, 2456956037,
   2730485921, 2820302411, 3259730800, 3345764771,
   3516065817, 3600352804, 4094571909, 275423344,
   430227734, 506948616, 659060556, 883997877,
   958139571, 1322822218, 1537002063, 1747873779,
   1955562222, 2024104815, 2227730452, 2361852424,
   2428436474, 2756734187, 3204031479, 3329325298]

/-- The eight 32-bit working variables of the compression function. -/
structure ShaState where
  a : Nat
  b : Nat
  c : Nat
  d : Nat
  e : Nat
  f : Nat
  g : Nat
  h : Nat
deriving DecidableEq

/-- The initial hash value (FIPS 180-4 section 5.3.3, in decimal). -/
def shaInit : ShaState :=
  ⟨1779033703, 3144134277, 1013904242, 2773480762,
   1359893119, 2600822924, 528734635, 1541459225⟩

/-- Big-endian bytes of `x`, `n` bytes wide. -/
def bytesBE (n x : Nat) : Bytes :=
  (List.range n).map (fun i => (x >>> (8 * (n - 1 - i))) % 256)

/-- The 16 initial 32-bit words of a 64-byte block. -/
def blockWords (blk : Bytes) : List Nat :=
  (List.range 16).map (fun i =>
    blk.getD (4 * i) 0 * 16777216 + blk.getD (4 * i + 1) 0 * 65536 +
    blk.getD (4 * i + 2) 0 * 256 + blk.getD (4 * i + 3) 0)

/-- Extend the 16 block words to the 64-entry message schedule. -/
def shaSchedule (blk : Bytes) : List Nat :=
  (List.range 48).foldl
    (fun ws _ =>
      let n := ws.length
      ws ++ [wadd (wadd (smallSigma1 (ws.getD (n - 2) 0)) (ws.getD (n - 7) 0))
                  (wadd (smallSigma0 (ws.getD (n - 15) 0)) (ws.getD (n - 16) 0))])
    (blockWords blk)

/-- One SHA-256 round; `kw` is the sum of the round constant and schedule word. -/
def shaRound (st : ShaState) (kw : Nat) : ShaState :=
  let t1 := wadd st.h (wadd (bigSigma1 st.e) (wadd (shaCh st.e st.f st.g) kw))
  let t2 := wadd (bigSigma0 st.a) (shaMaj st.a st.b st.c)
  ⟨wadd t1 t2, st.a, st.b, st.c, wadd st.d t1, st.e, st.f, st.g⟩

/-- Compress one 64-byte block into the running hash state. -/
def shaCompress (st : ShaState) (blk : Bytes) : ShaState :=
  let fin := (List.zipWith wadd shaK (shaSchedule blk)).foldl shaRound st
  ⟨wadd st.a fin.a, wadd st.b fin.b, wadd st.c fin.c, wadd st.d fin.d,
   wadd st.e fin.e, wadd st.f fin.f, wadd st.g fin.g, wadd st.h fin.h⟩

/-- SHA-256 padding: append 0x80, zeros, and the 64-bit big-endian bit length. -/
def shaPad (msg : Bytes) : Bytes :=
  msg ++ 128 :: List.replicate ((64 - ((msg.length + 9) % 64)) % 64) 0 ++ bytesBE 8 (msg.length * 8)

/-- Split a byte sequence into 64-byte blocks. -/
def splitBlocks : Bytes → List Bytes
  | [] => []
  | b :: rest => ((b :: rest).take 64) :: splitBlocks (rest.drop 63)
termination_by l => l.length
decreasing_by simp; omega

/-- SHA-256 of a byte sequence (32-byte digest). -/
def sha256 (msg : Bytes) : Bytes :=
  let fin := (splitBlocks (shaPad msg)).foldl shaCompress shaInit
  bytesBE 4 fin.a ++ bytesBE 4 fin.b ++ bytesBE 4 fin.c ++ bytesBE 4 fin.d ++
  bytesBE 4 fin.e ++ bytesBE 4 fin.f ++ bytesBE 4 fin.g ++ bytesBE 4 fin.h

/-- HMAC-SHA256 (RFC 2104): block size 64 bytes. -/
def hmacSha256 (key msg : Bytes) : Bytes :=
  let k0 := if 64 < key.length then sha256 key else key
  let kp := k0 ++ List.replicate (64 - k0.length) 0
  sha256 ((kp.map (fun b => b ^^^ 92)) ++ sha256 ((kp.map (fun b => b ^^^ 54)) ++ msg))

/- ===== base64 ===== -/

/-- ASCII code of the standard base64 alphabet character for a 6-bit value. -/
def b64char (n : Nat) : Nat :=
  if n < 26 then 65 + n
  else if n < 52 then 97 + (n - 26)
  else if n < 62 then 48 + (n - 52)
  else if n = 62 then 43
  else 47

/-- Standard base64 encoding (with `=` padding, ASCII code 61), producing the
code units of the digest string returned by `.digest('base64')`. -/
def base64Encode : Bytes → CodeUnits
  | [] => []
  | [b1] => [b64char (b1 >>> 2), b64char ((b1 &&& 3) <<< 4), 61, 61]
  | [b1, b2] => [b64char (b1 >>> 2), b64char (((b1 &&& 3) <<< 4) ||| (b2 >>> 4)),
                 b64char ((b2 &&& 15) <<< 2), 61]
  | b1 :: b2 :: b3 :: rest =>
    [b64char (b1 >>> 2), b64char (((b1 &&& 3) <<< 4) ||| (b2 >>> 4)),
     b64char (((b2 &&& 15) <<< 2) ||| (b3 >>> 6)), b64char (b3 &&& 63)] ++ base64Encode rest

/- ===== verifyShopifyWebhook ===== -/

/-- The digest string computed inside `verifyShopifyWebhook`:
`crypto.createHmac('sha256', SHOPIFY_WEBHOOK_SECRET).update(body, 'utf8').digest('base64')`.
Both the secret and the body are JS strings, serialized to UTF-8 by Node. -/
def generatedHash (secret body : CodeUnits) : CodeUnits :=
  base64Encode (hmacSha256 (utf16ToUtf8 secret) (utf16ToUtf8 body))

/-- `verifyShopifyWebhook(hmacHeader, body)` (identical in all three variants):
strict equality of the computed digest with the claimed header. A missing
header is `undefined`; a string is never strictly equal to `undefined`. -/
def verifyShopifyWebhook (secret : CodeUnits) (hmacHeader : Option CodeUnits)
    (body : CodeUnits) : Bool :=
  match hmacHeader with
  | none => false
  | some h => decide (generatedHash secret body = h)

/-- Flip bit `b` of code unit `i` of a JS string (a single-bit mutation). -/
def flipBit (s : CodeUnits) (i b : Nat) : CodeUnits :=
  s.set i ((s.getD i 0) ^^^ (1 <<< b))

theorem verify_genHash (secret body : CodeUnits) :
    verifyShopifyWebhook secret (some (generatedHash secret body)) body = true := by
  unfold verifyShopifyWebhook
  exact decide_eq_true rfl

theorem verify_none (secret body : CodeUnits) :
    verifyShopifyWebhook secret none body = false := rfl

/- ===== Parsed order payload (the shape JSON.parse can deliver) ===== -/

/-- The nested customer object of an order payload; each field may be absent. -/
structure Customer where
  email : Option String
  first_name : Option String
  last_name : Option String
deriving DecidableEq

/-- The nested billing-address object of an order payload. -/
structure BillingAddress where
  email : Option String
  first_name : Option String
  last_name : Option String
deriving DecidableEq

/-- One accumulated scheduling-link record of the Calendly variants. -/
structure SchedLink where
  title : String
  link : String
deriving DecidableEq

/-- One entry of the line-item array. -/
structure LineItem where
  product_id : Nat
  quantity : Nat
  title : String
deriving DecidableEq

/-- A parsed order payload. Optional fields model properties that may be
absent from the JSON (reading them in JS yields `undefined`). -/
structure OrderVal where
  id : Nat
  created_at : String
  email : Option String
  contact_email : Option String
  customer : Option Customer
  billing_address : Option BillingAddress
  line_items : Option (List LineItem)
deriving DecidableEq

/-- JS truthy-chain over string alternatives: the value of
`a || b || ... || ''` where each alternative is a string or `undefined` and
the empty string is falsy. -/
def firstTruthyString : List (Option String) → String
  | [] => ""
  | o :: rest =>
    match o with
    | some s => if s = "" then firstTruthyString rest else s
    | none => firstTruthyString rest

/-- `(order.customer && order.customer.email) || order.email ||
order.contact_email || (order.billing_address && order.billing_address.email) || ''`
(part_000 lines 29-34). -/
def extractCustomerEmail (o : OrderVal) : String :=
  firstTruthyString
    [o.customer.bind Customer.email, o.email, o.contact_email,
     o.billing_address.bind BillingAddress.email]

/-- Fallback chain for the first name (part_000 lines 36-39). -/
def extractFirstName (o : OrderVal) : String :=
  firstTruthyString
    [o.customer.bind Customer.first_name, o.billing_address.bind BillingAddress.first_name]

/-- Fallback chain for the last name (part_000 lines 41-44). -/
def extractLastName (o : OrderVal) : String :=
  firstTruthyString
    [o.customer.bind Customer.last_name, o.billing_address.bind BillingAddress.last_name]

/- ===== External-response shapes ===== -/

/-- The metaobject referenced by the product metafield: a flat key/value list. -/
structure MetaobjectRef where
  fields : List (String × String)
deriving DecidableEq

/-- The `metafield` node of the catalog GraphQL response. -/
structure Metafield where
  reference : Option MetaobjectRef
deriving DecidableEq

/-- The `product` node of the catalog GraphQL response. -/
structure ProductObj where
  metafield : Option Metafield
deriving DecidableEq

/-- Body of the catalog GraphQL response: a top-level `errors` value (truthy
when present, even as an empty array) and `data.product`. A missing product
node makes the JS attribute chain throw, which the surrounding catch turns
into a null result, so it is modeled as an option. -/
structure CatalogResp where
  errors : Option (List String)
  product : Option ProductObj
deriving DecidableEq

/-- One Calendly event type from the event-types listing. -/
structure EventType where
  slug : String
  uri : String
deriving DecidableEq

/-- Body of the Calendly scheduling-link creation response. -/
structure LinkResp where
  booking_url : String
deriving DecidableEq

/-- `data.data.orderUpdate` of the order-note mutation response. -/
structure OrderUpdateResult where
  userErrors : List String
deriving DecidableEq

/-- Body of the order-note mutation response: top-level `errors` (truthy when
present) and the `orderUpdate` payload (a missing payload makes the JS
attribute access throw inside the try, which the catch rethrows). -/
structure NoteResp where
  errors : Option (List String)
  orderUpdate : Option OrderUpdateResult
deriving DecidableEq

/- ===== Pure bodies of the per-call lookup functions ===== -/

/-- `getCalendlyEventHandle` (part_000 lines 128-195), as a function of the
HTTP outcome of its one GraphQL call: transport errors, GraphQL `errors`,
a missing product/metafield/reference, and a missing
`calendly_event_url_handle` field all resolve to null. -/
def getCalendlyEventHandle (resp : Except Unit CatalogResp) : Option String :=
  match resp with
  | Except.error _ => none
  | Except.ok data =>
    if data.errors.isSome then none
    else
      match data.product with
      | none => none
      | some p =>
        match p.metafield with
        | none => none
        | some mf =>
          match mf.reference with
          | none => none
          | some mo =>
            match mo.fields.find? (fun f => f.1 = "calendly_event_url_handle") with
            | some f => some f.2
            | none => none

/-- Flat event data assembled by `getEventDataFromProduct`
(part_000 lines 546-556); fields left unset stay `undefined`. -/
structure EventData where
  title : Option String
  map_embed : Option String
  address : Option String
  start_date_time : Option String
  end_date_time : Option String
  refund_policy : Option String
  calendar_embed : Option String
deriving DecidableEq

def emptyEventData : EventData := ⟨none, none, none, none, none, none, none⟩

/-- One assignment step of the field loop in `getEventDataFromProduct`. -/
def assignEventField (ed : EventData) (f : String × String) : EventData :=
  if f.1 = "event.title" then { ed with title := some f.2 }
  else if f.1 = "event.map_embed" then { ed with map_embed := some f.2 }
  else if f.1 = "event.address" then { ed with address := some f.2 }
  else if f.1 = "event.start_date_time" then { ed with start_date_time := some f.2 }
  else if f.1 = "event.end_date_time" then { ed with end_date_time := some f.2 }
  else if f.1 = "event.refund_policy" then { ed with refund_policy := some f.2 }
  else if f.1 = "event.calendar_embed" then { ed with calendar_embed := some f.2 }
  else ed

/-- `getEventDataFromProduct` (part_000 lines 494-566): like the handle
lookup it degrades to null on any failure; on success it folds the
metaobject field list into an event-data record (an empty field list still
yields a record, because an empty JS object is truthy). -/
def getEventDataFromProduct (resp : Except Unit CatalogResp) : Option EventData :=
  match resp with
  | Except.error _ => none
  | Except.ok data =>
    if data.errors.isSome then none
    else
      match data.product with
      | none => none
      | some p =>
        match p.metafield with
        | none => none
        | some mf =>
          match mf.reference with
          | none => none
          | some mo => some (mo.fields.foldl assignEventField emptyEventData)

/- ===== Effect monad: exceptions plus a trace of issued calls ===== -/

/-- One observable step of an invocation: the JSON.parse of the body, or one
outbound HTTP call (with the request data the repository code put into it). -/
inductive Step where
  | parseBody
  | catalog (productId : Nat)
  | calendlyUser
  | calendlyEventTypes
  | calendlyCreateLink (email firstName lastName : Option String) (eventTypeUri : String)
  | klaviyoTrack (email firstName lastName : String) (orderId : Nat)
  | klaviyoTrackOrig (email firstName lastName : Option String) (orderId : Nat)
  | klaviyoTrackMeta (externalId : String) (metricName : String) (orderId : Nat) (time : String)
  | shopifyNoteUpdate (orderId : Nat) (note : String)
deriving DecidableEq

deriving instance DecidableEq for Except

/-- State-and-exception monad: a computation appends the steps it performs
and may end in a thrown JS exception (modeled as `Except.error`). -/
def Eff (α : Type) : Type := List Step → Except Unit α × List Step

instance : Monad Eff where
  pure a := fun s => (Except.ok a, s)
  bind x f := fun s =>
    match x s with
    | (Except.ok a, s1) => f a s1
    | (Except.error e, s1) => (Except.error e, s1)

/-- Record one performed step. -/
def effEmit (st : Step) : Eff Unit := fun s => (Except.ok (), s ++ [st])

/-- A thrown exception. -/
def effThrow {α : Type} : Eff α := fun s => (Except.error (), s)

/-- Lift an external outcome: a transport error becomes a thrown exception. -/
def liftE {α : Type} (x : Except Unit α) : Eff α := fun s => (x, s)

/-- Dereference a possibly-undefined JS value: reading a property of (or
iterating over) `undefined` throws a TypeError. -/
def jsField {α : Type} : Option α → Eff α
  | none => effThrow
  | some a => pure a

theorem pure_eff {α : Type} (a : α) (s : List Step) :
    (pure a : Eff α) s = (Except.ok a, s) := rfl

theorem bind_eff {α β : Type} (x : Eff α) (f : α → Eff β) (s : List Step) :
    (x >>= f) s =
      match x s with
      | (Except.ok a, s1) => f a s1
      | (Except.error e, s1) => (Except.error e, s1) := rfl

/- ===== Environments of external-call outcomes ===== -/

/-- External outcomes seen by a Calendly-variant invocation (`handlerOrig`
and `handlerCal`). `parseJson` is the outcome of the JSON.parse library
call on the raw body; `createLinkResp` is indexed by how many
scheduling-link creations were already issued in this invocation. -/
structure CalEnv where
  secret : CodeUnits
  parseJson : CodeUnits → Except Unit OrderVal
  catalogResp : Nat → Except Unit CatalogResp
  usersMeResp : Except Unit String
  eventTypesResp : String → Except Unit (List EventType)
  createLinkResp : Nat → Except Unit LinkResp
  trackResp : Except Unit Unit
  noteResp : Except Unit NoteResp

/-- External outcomes seen by a metaobject-variant invocation. `toIso` is
the outcome of `new Date(orderTime).toISOString()`, which throws on an
invalid date. -/
structure MetaEnv where
  secret : CodeUnits
  parseJson : CodeUnits → Except Unit OrderVal
  catalogResp : Nat → Except Unit CatalogResp
  toIso : String → Except Unit String
  trackResp : Except Unit Unit
  noteResp : Except Unit NoteResp

/-- An inbound webhook request: a header map and the raw body string. -/
structure EventReq where
  headers : String → Option CodeUnits
  body : CodeUnits

/-- HTTP responses produced by the handlers. -/
structure Resp where
  statusCode : Nat
  body : String
deriving DecidableEq

def resp200 : Resp := ⟨200, "Success"⟩

def resp401 : Resp := ⟨401, "Invalid request"⟩

def resp500 : Resp := ⟨500, "Internal Server Error"⟩

/- ===== Effectful per-call wrappers (Calendly variants) ===== -/

/-- Issue the catalog GraphQL call and interpret it exactly as
`getCalendlyEventHandle` does. -/
def getCalendlyEventHandleEff (env : CalEnv) (productId : Nat) : Eff (Option String) := do
  effEmit (Step.catalog productId)
  pure (getCalendlyEventHandle (env.catalogResp productId))

/-- `getCalendlyEventTypeUri` (part_000 lines 198-225): two chained calls
inside one try; a failure of either resolves to null (no rethrow), and the
second call is only issued when the first succeeded. -/
def getCalendlyEventTypeUriEff (env : CalEnv) (eventHandle : String) : Eff (Option String) := do
  effEmit Step.calendlyUser
  match env.usersMeResp with
  | Except.error _ => pure none
  | Except.ok userUri => do
    effEmit Step.calendlyEventTypes
    match env.eventTypesResp userUri with
    | Except.error _ => pure none
    | Except.ok col =>
      pure
        (match col.find? (fun e => e.slug = eventHandle) with
         | some e => some e.uri
         | none => none)

/-- Detects a scheduling-link creation step (used to index the per-call
outcomes of `createLinkResp`). -/
def isCreateCall : Step → Bool
  | Step.calendlyCreateLink _ _ _ _ => true
  | _ => false

/-- `createCalendlySchedulingLink` (part_000 lines 228-264): unlike the two
lookups above, a failed call is logged and then RETHROWN as a new error, so
the exception escapes to the caller. -/
def createCalendlySchedulingLinkEff (env : CalEnv)
    (email firstName lastName : Option String) (eventTypeUri : String) : Eff String :=
  fun s =>
    let idx := (s.filter isCreateCall).length
    let s2 := s ++ [Step.calendlyCreateLink email firstName lastName eventTypeUri]
    match env.createLinkResp idx with
    | Except.error e => (Except.error e, s2)
    | Except.ok r => (Except.ok r.booking_url, s2)

/-- The inner `for (let i = 0; i < quantity; i++)` loop of the Calendly
handlers: one scheduling-link creation per purchased unit, each pushed with
a 1-based ticket index appended to the line-item title. `i` is the loop
counter, the second argument the remaining iterations. -/
def unitsLoopCal (env : CalEnv) (email firstName lastName : Option String)
    (liTitle eventTypeUri : String) : Nat → Nat → Eff (List SchedLink)
  | _, 0 => pure []
  | i, Nat.succ n => do
    let link ← createCalendlySchedulingLinkEff env email firstName lastName eventTypeUri
    let rest ← unitsLoopCal env email firstName lastName liTitle eventTypeUri (i + 1) n
    pure ({ title := liTitle ++ " (Ticket " ++ toString (i + 1) ++ ")", link := link } :: rest)

/-- JS truthiness of a possibly-undefined string: `undefined` and the
empty string are falsy. -/
def jsTruthyS : Option String → Bool
  | none => false
  | some s => !(s == "")

/-- One iteration of the line-item loop of the Calendly handlers
(part_000 lines 54-85): handle lookup, then (if the handle is truthy) the
event-type lookup, then (if the URI is truthy) one link per unit. A falsy
handle or URI contributes no links. -/
def processLineItemCal (env : CalEnv) (email firstName lastName : Option String)
    (li : LineItem) : Eff (List SchedLink) := do
  let eventHandle ← getCalendlyEventHandleEff env li.product_id
  if jsTruthyS eventHandle then do
    let uriOpt ← getCalendlyEventTypeUriEff env (eventHandle.getD "")
    if jsTruthyS uriOpt then
      unitsLoopCal env email firstName lastName li.title (uriOpt.getD "") 0 li.quantity
    else pure []
  else pure []

/-- The full line-item loop, accumulating `schedulingLinks` in order. -/
def calLineItemsLoop (env : CalEnv) (email firstName lastName : Option String) :
    List LineItem → Eff (List SchedLink)
  | [] => pure []
  | li :: rest => do
    let links ← processLineItemCal env email firstName lastName li
    let more ← calLineItemsLoop env email firstName lastName rest
    pure (links ++ more)

/- ===== Klaviyo tracking and order-note annotation (Calendly variants) ===== -/

/-- `trackKlaviyoEvent` of part_000 (lines 267-325): its own guard returns
without posting when the email is empty; a failed POST is rethrown. -/
def trackKlaviyoEventCal (env : CalEnv) (email firstName lastName : String)
    (orderId : Nat) : Eff Unit :=
  if email = "" then pure ()
  else do
    effEmit (Step.klaviyoTrack email firstName lastName orderId)
    liftE env.trackResp

/-- `trackKlaviyoEvent` of src/functions/shopify-webhook-handler.js
(lines 116-175): no email guard; a failed POST is rethrown. -/
def trackKlaviyoEventOrig (env : CalEnv) (email firstName lastName : Option String)
    (orderId : Nat) : Eff Unit := do
  effEmit (Step.klaviyoTrackOrig email firstName lastName orderId)
  liftE env.trackResp

/-- The order-note text of the Calendly variants (part_000 lines 332-334, 354):
one line per scheduling link. -/
def noteTextCal (links : List SchedLink) : String :=
  "Scheduling Links:\n" ++ String.intercalate "\n" (links.map (fun l => l.title ++ ": " ++ l.link))

/-- `addNoteToShopifyOrder` of the Calendly variants (part_000 lines 328-395):
a transport error, a truthy top-level `errors` value, a missing
`orderUpdate` payload, or a non-empty `userErrors` array are all logged and
rethrown. -/
def addNoteToShopifyOrderCal (env : CalEnv) (orderId : Nat) (links : List SchedLink) :
    Eff Unit := do
  effEmit (Step.shopifyNoteUpdate orderId (noteTextCal links))
  match env.noteResp with
  | Except.error _ => effThrow
  | Except.ok data =>
    if data.errors.isSome then effThrow
    else
      match data.orderUpdate with
      | none => effThrow
      | some ou => if 0 < ou.userErrors.length then effThrow else pure ()

/- ===== Metaobject-variant components ===== -/

/-- One enriched record of the metaobject variant (part_000 lines 441-450):
the event fields plus the originating line-item title. -/
structure EventProduct where
  title : Option String
  map_embed : Option String
  address : Option String
  start_date_time : Option String
  end_date_time : Option String
  refund_policy : Option String
  calendar_embed : Option String
  line_item_title : String
deriving DecidableEq

def eventProductOf (ed : EventData) (liTitle : String) : EventProduct :=
  ⟨ed.title, ed.map_embed, ed.address, ed.start_date_time, ed.end_date_time,
   ed.refund_policy, ed.calendar_embed, liTitle⟩

/-- One iteration of the metaobject line-item loop (part_000 lines 427-455):
a hit pushes one record per purchased unit (the same data each time); a
miss contributes nothing and the loop continues. -/
def processLineItemMeta (env : MetaEnv) (li : LineItem) : Eff (List EventProduct) := do
  effEmit (Step.catalog li.product_id)
  match getEventDataFromProduct (env.catalogResp li.product_id) with
  | some ed => pure (List.replicate li.quantity (eventProductOf ed li.title))
  | none => pure []

/-- The metaobject line-item loop, accumulating `eventProducts` in order. -/
def metaLineItemsLoop (env : MetaEnv) : List LineItem → Eff (List EventProduct)
  | [] => pure []
  | li :: rest => do
    let eps ← processLineItemMeta env li
    let more ← metaLineItemsLoop env rest
    pure (eps ++ more)

/-- The Klaviyo event payload built by the metaobject `trackKlaviyoEvent`
(part_000 lines 574-602). The `nonPiiId` argument is received by the
function but the payload hardcodes the literal profile external_id
"order_5845762638078" (line 591), exactly as the source does. -/
structure KlaviyoMetaPayload where
  metricName : String
  external_id : String
  event_products : List EventProduct
  order_id : Nat
  time : String
deriving DecidableEq

def klaviyoMetaPayload (nonPiiId : String) (eventProducts : List EventProduct)
    (orderId : Nat) (isoTime : String) : KlaviyoMetaPayload :=
  { metricName := "Event Product Purchased"
  , external_id := "order_5845762638078"
  , event_products := eventProducts
  , order_id := orderId
  , time := isoTime }

/-- `trackKlaviyoEvent` of the metaobject variant (part_000 lines 569-621):
converts the order time to an ISO string (a conversion failure throws and
is rethrown by the catch), then posts the payload; a failed POST is
rethrown. -/
def trackKlaviyoEventMeta (env : MetaEnv) (nonPiiId : String)
    (eventProducts : List EventProduct) (orderId : Nat) (orderTime : String) : Eff Unit :=
  match env.toIso orderTime with
  | Except.error _ => effThrow
  | Except.ok iso => do
    let payload := klaviyoMetaPayload nonPiiId eventProducts orderId iso
    effEmit (Step.klaviyoTrackMeta payload.external_id payload.metricName orderId iso)
    liftE env.trackResp

/-- Rendering of a possibly-undefined string in a JS template literal. -/
def jsShow : Option String → String
  | none => "undefined"
  | some s => s

/-- One stanza of the metaobject order note (part_000 lines 629-639),
`idx` 0-based as in the source `map`. -/
def metaStanza (idx : Nat) (ep : EventProduct) : String :=
  "Event " ++ toString (idx + 1) ++ ": " ++ jsShow ep.title ++ "\n" ++
  "Address: " ++ jsShow ep.address ++ "\n" ++
  "Start: " ++ jsShow ep.start_date_time ++ "\n" ++
  "End: " ++ jsShow ep.end_date_time ++ "\n" ++
  "Refund Policy: " ++ jsShow ep.refund_policy ++ "\n" ++
  "Map Embed: " ++ jsShow ep.map_embed ++ "\n" ++
  "Calendar Embed: " ++ jsShow ep.calendar_embed

/-- The metaobject order-note text (part_000 lines 628-640, 662): stanzas
separated by a blank line, under an "Event Details:" heading. -/
def noteTextMeta (eps : List EventProduct) : String :=
  "Event Details:\n\n" ++
  String.intercalate "\n\n" (eps.enum.map (fun p => metaStanza p.1 p.2))

/-- `addNoteToShopifyOrder` of the metaobject variant (part_000 lines
624-699): same failure contract as the Calendly variant. -/
def addNoteToShopifyOrderMeta (env : MetaEnv) (orderId : Nat)
    (eps : List EventProduct) : Eff Unit := do
  effEmit (Step.shopifyNoteUpdate orderId (noteTextMeta eps))
  match env.noteResp with
  | Except.error _ => effThrow
  | Except.ok data =>
    if data.errors.isSome then effThrow
    else
      match data.orderUpdate with
      | none => effThrow
      | some ou => if 0 < ou.userErrors.length then effThrow else pure ()

/- ===== The three handlers ===== -/

/-- Body of the part_000 Calendly handler after signature verification
(part_000 lines 19-110): JSON.parse (a failure throws to the outer catch),
the identity fallback chain, the line-item loop, and the conditional
fan-out: when at least one link was collected, track in Klaviyo (skipped
with a warning when the extracted email is empty) and then annotate the
order; reading `order.line_items` when the payload has no line-item array
throws. -/
def handlerCalAfterVerify (env : CalEnv) (event : EventReq) : Eff Resp := do
  effEmit Step.parseBody
  let order ← liftE (env.parseJson event.body)
  let customerEmail := extractCustomerEmail order
  let firstName := extractFirstName order
  let lastName := extractLastName order
  let items ← jsField order.line_items
  let schedulingLinks ←
    calLineItemsLoop env (some customerEmail) (some firstName) (some lastName) items
  if 0 < schedulingLinks.length then do
    (if customerEmail = "" then pure ()
     else trackKlaviyoEventCal env customerEmail firstName lastName order.id)
    addNoteToShopifyOrderCal env order.id schedulingLinks
    pure resp200
  else pure resp200

/-- `exports.handler` of the part_000 Calendly variant: 401 on signature
mismatch (header read from the lowercase key only), 500 when anything in
the try block throws, 200 otherwise. -/
def handlerCal (env : CalEnv) (event : EventReq) : Resp × List Step :=
  if verifyShopifyWebhook env.secret (event.headers "x-shopify-hmac-sha256") event.body then
    match handlerCalAfterVerify env event [] with
    | (Except.ok r, s) => (r, s)
    | (Except.error _, s) => (resp500, s)
  else (resp401, [])

/-- Body of the src/functions/shopify-webhook-handler.js handler after
signature verification (lines 19-83): no fallback chain - the email is
`order.email` and the names are read from `order.customer` directly, so a
payload without a customer object throws; no empty-email guard before
tracking. -/
def handlerOrigAfterVerify (env : CalEnv) (event : EventReq) : Eff Resp := do
  effEmit Step.parseBody
  let order ← liftE (env.parseJson event.body)
  let customerEmail := order.email
  let customer ← jsField order.customer
  let firstName := customer.first_name
  let lastName := customer.last_name
  let items ← jsField order.line_items
  let schedulingLinks ← calLineItemsLoop env customerEmail firstName lastName items
  if 0 < schedulingLinks.length then do
    trackKlaviyoEventOrig env customerEmail firstName lastName order.id
    addNoteToShopifyOrderCal env order.id schedulingLinks
    pure resp200
  else pure resp200

/-- `exports.handler` of src/functions/shopify-webhook-handler.js. -/
def handlerOrig (env : CalEnv) (event : EventReq) : Resp × List Step :=
  if verifyShopifyWebhook env.secret (event.headers "x-shopify-hmac-sha256") event.body then
    match handlerOrigAfterVerify env event [] with
    | (Except.ok r, s) => (r, s)
    | (Except.error _, s) => (resp500, s)
  else (resp401, [])

/-- JS `a || b` on two possibly-undefined header strings: an absent or
empty-string left operand selects the right one. -/
def jsOrHeader : Option CodeUnits → Option CodeUnits → Option CodeUnits
  | none, b => b
  | some [], b => b
  | some s, _ => some s

/-- The header value consulted by the metaobject handler (part_000 lines
409-410): the lowercase key, falling back to the capitalized spelling. -/
def metaHmacHeader (headers : String → Option CodeUnits) : Option CodeUnits :=
  jsOrHeader (headers "x-shopify-hmac-sha256") (headers "X-Shopify-Hmac-Sha256")

/-- Body of the metaobject handler after signature verification (part_000
lines 418-477): parse, derive the non-PII id "order_" + order id, run the
line-item loop, and when any records were collected, track in Klaviyo and
annotate the order. -/
def handlerMetaAfterVerify (env : MetaEnv) (event : EventReq) : Eff Resp := do
  effEmit Step.parseBody
  let order ← liftE (env.parseJson event.body)
  let nonPiiId := "order_" ++ toString order.id
  let items ← jsField order.line_items
  let eventProducts ← metaLineItemsLoop env items
  if 0 < eventProducts.length then do
    trackKlaviyoEventMeta env nonPiiId eventProducts order.id order.created_at
    addNoteToShopifyOrderMeta env order.id eventProducts
    pure resp200
  else pure resp200

/-- `exports.handler` of the metaobject variant. -/
def handlerMeta (env : MetaEnv) (event : EventReq) : Resp × List Step :=
  if verifyShopifyWebhook env.secret (metaHmacHeader event.headers) event.body then
    match handlerMetaAfterVerify env event [] with
    | (Except.ok r, s) => (r, s)
    | (Except.error _, s) => (resp500, s)
  else (resp401, [])

/- ===== Generic helpers and specification-side descriptions ===== -/

/-- Concatenation of per-element lists, in element order. -/
def concatMap {α β : Type} (f : α → List β) : List α → List β
  | [] => []
  | a :: l => f a ++ concatMap f l

/-- Sum of the quantities of a list of line items. -/
def sumQuantities (items : List LineItem) : Nat :=
  (items.map LineItem.quantity).sum

/-- Modelled from the spec: the per-item contribution of the metaobject
enrichment pass - a hit contributes one record per purchased unit, a miss
contributes nothing. -/
def metaSpecItem (env : MetaEnv) (li : LineItem) : List EventProduct :=
  match getEventDataFromProduct (env.catalogResp li.product_id) with
  | some ed => List.replicate li.quantity (eventProductOf ed li.title)
  | none => []

/-- Modelled from the spec: the whole metaobject enrichment output,
iterating line items in payload order. -/
def metaEnrichmentSpec (env : MetaEnv) (items : List LineItem) : List EventProduct :=
  concatMap (metaSpecItem env) items

/-- The event-type URI resolved for a handle, as a pure function of the
two Calendly call outcomes. -/
def calUriFor (env : CalEnv) (eventHandle : String) : Option String :=
  match env.usersMeResp with
  | Except.error _ => none
  | Except.ok userUri =>
    match env.eventTypesResp userUri with
    | Except.error _ => none
    | Except.ok col =>
      match col.find? (fun e => e.slug = eventHandle) with
      | some e => some e.uri
      | none => none

/-- Whether a line item has a (truthy) handle and a (truthy) resolved
event-type URI, i.e. whether its lookups hit. -/
def calHit (env : CalEnv) (li : LineItem) : Bool :=
  jsTruthyS (getCalendlyEventHandle (env.catalogResp li.product_id)) &&
  jsTruthyS (calUriFor env ((getCalendlyEventHandle (env.catalogResp li.product_id)).getD ""))

/-- The 1-based per-unit titles of a line item, starting at counter `i`. -/
def ticketTitles (t : String) : Nat → Nat → List String
  | _, 0 => []
  | i, Nat.succ n => (t ++ " (Ticket " ++ toString (i + 1) ++ ")") :: ticketTitles t (i + 1) n

/-- Modelled from the spec: the titles of the Calendly enrichment output -
per line item in payload order, quantity titles (indexed 1..quantity) on a
hit and none on a miss. -/
def calTitlesSpec (env : CalEnv) (items : List LineItem) : List String :=
  concatMap (fun li => if calHit env li then ticketTitles li.title 0 li.quantity else []) items

theorem ticketTitles_length (t : String) (i n : Nat) :
    (ticketTitles t i n).length = n := by
  induction n generalizing i with
  | zero => rfl
  | succ m ih => simp [ticketTitles, ih]

theorem ticketTitles_eq_range (t : String) (i n : Nat) :
    ticketTitles t i n =
      (List.range n).map (fun j => t ++ " (Ticket " ++ toString (i + j + 1) ++ ")") := by
  induction n generalizing i with
  | zero => rfl
  | succ m ih =>
    rw [List.range_succ_eq_map]
    simp [ticketTitles, ih (i + 1), List.map_map, Function.comp_def]
    intro a _
    have : i + 1 + a + 1 = i + (a + 1) + 1 := by omega
    rw [this]

/- ===== Inversion and evaluation lemmas for the effect monad ===== -/

theorem bind_ok {α β : Type} {x : Eff α} {f : α → Eff β} {s s2 : List Step} {b : β}
    (h : (x >>= f) s = (Except.ok b, s2)) :
    ∃ a s1, x s = (Except.ok a, s1) ∧ f a s1 = (Except.ok b, s2) := by
  rw [bind_eff] at h
  cases hx : x s with
  | mk r s1 =>
    rw [hx] at h
    cases r with
    | ok a => exact ⟨a, s1, rfl, h⟩
    | error e =>
      change (Except.error e, s1) = (Except.ok b, s2) at h
      simp at h

theorem effEmit_apply (st : Step) (s : List Step) :
    effEmit st s = (Except.ok (), s ++ [st]) := rfl

theorem effThrow_apply {α : Type} (s : List Step) :
    (effThrow : Eff α) s = (Except.error (), s) := rfl

theorem liftE_apply {α : Type} (x : Except Unit α) (s : List Step) :
    liftE x s = (x, s) := rfl

theorem getCalendlyEventHandleEff_apply (env : CalEnv) (pid : Nat) (s : List Step) :
    getCalendlyEventHandleEff env pid s =
      (Except.ok (getCalendlyEventHandle (env.catalogResp pid)), s ++ [Step.catalog pid]) := rfl

/-- The steps issued by one `getCalendlyEventTypeUri` call: the second HTTP
call happens only when the first succeeded. -/
def uriTraceSteps (env : CalEnv) : List Step :=
  match env.usersMeResp with
  | Except.error _ => [Step.calendlyUser]
  | Except.ok _ => [Step.calendlyUser, Step.calendlyEventTypes]

theorem getCalendlyEventTypeUriEff_apply (env : CalEnv) (h : String) (s : List Step) :
    getCalendlyEventTypeUriEff env h s =
      (Except.ok (calUriFor env h), s ++ uriTraceSteps env) := by
  cases h1 : env.usersMeResp with
  | error e =>
    simp [getCalendlyEventTypeUriEff, calUriFor, uriTraceSteps, bind_eff, effEmit, pure_eff, h1]
  | ok userUri =>
    cases h2 : env.eventTypesResp userUri with
    | error e =>
      simp [getCalendlyEventTypeUriEff, calUriFor, uriTraceSteps, bind_eff, effEmit, pure_eff,
        h1, h2]
    | ok col =>
      simp [getCalendlyEventTypeUriEff, calUriFor, uriTraceSteps, bind_eff, effEmit, pure_eff,
        h1, h2]

theorem createCalendlySchedulingLinkEff_apply (env : CalEnv)
    (email firstName lastName : Option String) (uri : String) (s : List Step) :
    createCalendlySchedulingLinkEff env email firstName lastName uri s =
      (match env.createLinkResp ((s.filter isCreateCall).length) with
       | Except.error e => Except.error e
       | Except.ok r => Except.ok r.booking_url,
       s ++ [Step.calendlyCreateLink email firstName lastName uri]) := by
  cases hr : env.createLinkResp ((s.filter isCreateCall).length) with
  | error e => simp [createCalendlySchedulingLinkEff, hr]
  | ok r => simp [createCalendlySchedulingLinkEff, hr]

theorem processLineItemMeta_apply (env : MetaEnv) (li : LineItem) (s : List Step) :
    processLineItemMeta env li s =
      (Except.ok (metaSpecItem env li), s ++ [Step.catalog li.product_id]) := by
  cases hd : getEventDataFromProduct (env.catalogResp li.product_id) with
  | none => simp [processLineItemMeta, metaSpecItem, bind_eff, effEmit, pure_eff, hd]
  | some ed => simp [processLineItemMeta, metaSpecItem, bind_eff, effEmit, pure_eff, hd]

/-- The metaobject line-item loop never throws: it returns exactly the
spec-side enrichment output and issues exactly one catalog call per line
item, in payload order. -/
theorem metaLineItemsLoop_apply (env : MetaEnv) (items : List LineItem) (s : List Step) :
    metaLineItemsLoop env items s =
      (Except.ok (metaEnrichmentSpec env items),
       s ++ items.map (fun li => Step.catalog li.product_id)) := by
  induction items generalizing s with
  | nil => simp [metaLineItemsLoop, metaEnrichmentSpec, concatMap, pure_eff]
  | cons li rest ih =>
    simp [metaLineItemsLoop, metaEnrichmentSpec, concatMap, bind_eff,
      processLineItemMeta_apply, ih, pure_eff]

theorem metaSpecItem_length (env : MetaEnv) (li : LineItem) :
    (metaSpecItem env li).length ≤ li.quantity := by
  unfold metaSpecItem
  cases getEventDataFromProduct (env.catalogResp li.product_id) with
  | none => simp
  | some ed => simp

/-- Record-count bound for the metaobject enrichment output. -/
theorem metaEnrichmentSpec_length_le (env : MetaEnv) (items : List LineItem) :
    (metaEnrichmentSpec env items).length ≤ sumQuantities items := by
  induction items with
  | nil => simp [metaEnrichmentSpec, concatMap, sumQuantities]
  | cons li rest ih =>
    have h1 := metaSpecItem_length env li
    simp [metaEnrichmentSpec, concatMap, sumQuantities] at ih ⊢
    omega

/- ===== Step classifiers ===== -/

/-- Steps issued by the enrichment loop (lookups and link creations). -/
def isEnrichStep : Step → Bool
  | Step.catalog _ => true
  | Step.calendlyUser => true
  | Step.calendlyEventTypes => true
  | Step.calendlyCreateLink _ _ _ _ => true
  | _ => false

/-- Any Klaviyo tracking POST, of any variant. -/
def isKlaviyoCall : Step → Bool
  | Step.klaviyoTrack _ _ _ _ => true
  | Step.klaviyoTrackOrig _ _ _ _ => true
  | Step.klaviyoTrackMeta _ _ _ _ => true
  | _ => false

/-- The order-note mutation POST. -/
def isNoteCall : Step → Bool
  | Step.shopifyNoteUpdate _ _ => true
  | _ => false

theorem isEnrichStep_not_klaviyo (st : Step) (h : isEnrichStep st = true) :
    isKlaviyoCall st = false := by
  cases st <;> simp_all [isEnrichStep, isKlaviyoCall]

theorem isEnrichStep_not_note (st : Step) (h : isEnrichStep st = true) :
    isNoteCall st = false := by
  cases st <;> simp_all [isEnrichStep, isNoteCall]

/- ===== Calendly loop characterizations ===== -/

theorem unitsLoopCal_ok_titles (env : CalEnv) (em fn ln : Option String) (t uri : String) :
    ∀ (n i : Nat) (s s2 : List Step) (links : List SchedLink),
      unitsLoopCal env em fn ln t uri i n s = (Except.ok links, s2) →
      links.map SchedLink.title = ticketTitles t i n := by
  intro n
  induction n with
  | zero =>
    intro i s s2 links h
    simp only [unitsLoopCal, pure_eff, Prod.mk.injEq, Except.ok.injEq] at h
    rw [← h.1]
    rfl
  | succ m ih =>
    intro i s s2 links h
    simp only [unitsLoopCal] at h
    obtain ⟨link, s1, hc, h⟩ := bind_ok h
    obtain ⟨rest, s3, hr, h⟩ := bind_ok h
    change (Except.ok _, s3) = (Except.ok links, s2) at h
    simp only [Prod.mk.injEq, Except.ok.injEq] at h
    rw [← h.1]
    simp only [List.map_cons, ticketTitles]
    exact congrArg _ (ih (i + 1) s1 s3 rest hr)


/-- Unfolding equation for one iteration of the per-unit loop. -/
theorem unitsLoopCal_succ_apply (env : CalEnv) (em fn ln : Option String) (t uri : String)
    (i n : Nat) (s : List Step) :
    unitsLoopCal env em fn ln t uri i (n + 1) s =
      (match env.createLinkResp ((s.filter isCreateCall).length) with
       | Except.error _ => (Except.error (), s ++ [Step.calendlyCreateLink em fn ln uri])
       | Except.ok r =>
         match unitsLoopCal env em fn ln t uri (i + 1) n
             (s ++ [Step.calendlyCreateLink em fn ln uri]) with
         | (Except.ok rest, s3) =>
           (Except.ok ({ title := t ++ " (Ticket " ++ toString (i + 1) ++ ")",
                         link := r.booking_url } :: rest), s3)
         | (Except.error e, s3) => (Except.error e, s3)) := by
  cases hc : env.createLinkResp ((s.filter isCreateCall).length) with
  | error e =>
    simp [unitsLoopCal, bind_eff, createCalendlySchedulingLinkEff_apply, hc]
  | ok r =>
    rcases hrec : unitsLoopCal env em fn ln t uri (i + 1) n
        (s ++ [Step.calendlyCreateLink em fn ln uri]) with ⟨rr, s3⟩
    cases rr with
    | ok rest =>
      simp [unitsLoopCal, bind_eff, createCalendlySchedulingLinkEff_apply, hc, hrec, pure_eff]
    | error e =>
      simp [unitsLoopCal, bind_eff, createCalendlySchedulingLinkEff_apply, hc, hrec]

theorem unitsLoopCal_trace (env : CalEnv) (em fn ln : Option String) (t uri : String) :
    ∀ (n i : Nat) (s : List Step),
      ∃ tr, (unitsLoopCal env em fn ln t uri i n s).2 = s ++ tr ∧
        ∀ st ∈ tr, isEnrichStep st = true := by
  intro n
  induction n with
  | zero =>
    intro i s
    exact ⟨[], by simp [unitsLoopCal, pure_eff], by simp⟩
  | succ m ih =>
    intro i s
    rw [unitsLoopCal_succ_apply]
    cases hc : env.createLinkResp ((s.filter isCreateCall).length) with
    | error e =>
      refine ⟨[Step.calendlyCreateLink em fn ln uri], by simp [hc], ?_⟩
      intro st hst
      simp at hst
      rw [hst]
      rfl
    | ok r =>
      obtain ⟨t2, ht2, hall⟩ := ih (i + 1) (s ++ [Step.calendlyCreateLink em fn ln uri])
      rcases hrec : unitsLoopCal env em fn ln t uri (i + 1) m
          (s ++ [Step.calendlyCreateLink em fn ln uri]) with ⟨rr, s3⟩
      rw [hrec] at ht2
      refine ⟨Step.calendlyCreateLink em fn ln uri :: t2, ?_, ?_⟩
      · cases rr with
        | ok v => simp [hc, hrec]; simpa using ht2
        | error e2 => simp [hc, hrec]; simpa using ht2
      · intro st hst
        rcases List.mem_cons.mp hst with h1 | h1
        · rw [h1]; rfl
        · exact hall st h1

/-- The per-item trace when the item misses (falsy handle or falsy URI). -/
def missTraceCal (env : CalEnv) (li : LineItem) : List Step :=
  Step.catalog li.product_id ::
    (if jsTruthyS (getCalendlyEventHandle (env.catalogResp li.product_id)) then
       uriTraceSteps env
     else [])

theorem uriTraceSteps_enrich (env : CalEnv) :
    ∀ st ∈ uriTraceSteps env, isEnrichStep st = true := by
  unfold uriTraceSteps
  cases env.usersMeResp with
  | error e => intro st hst; simp at hst; rw [hst]; rfl
  | ok u =>
    intro st hst
    simp at hst
    rcases hst with h | h <;> (rw [h]; rfl)

/-- Unfolding equation for one line-item iteration of the Calendly loop. -/
theorem processLineItemCal_apply (env : CalEnv) (em fn ln : Option String)
    (li : LineItem) (s : List Step) :
    processLineItemCal env em fn ln li s =
      (if jsTruthyS (getCalendlyEventHandle (env.catalogResp li.product_id)) then
         (if jsTruthyS (calUriFor env
              ((getCalendlyEventHandle (env.catalogResp li.product_id)).getD "")) then
            unitsLoopCal env em fn ln li.title
              ((calUriFor env
                 ((getCalendlyEventHandle (env.catalogResp li.product_id)).getD "")).getD "")
              0 li.quantity
              (s ++ [Step.catalog li.product_id] ++ uriTraceSteps env)
          else (Except.ok [], s ++ [Step.catalog li.product_id] ++ uriTraceSteps env))
       else (Except.ok [], s ++ [Step.catalog li.product_id])) := by
  by_cases hA : jsTruthyS (getCalendlyEventHandle (env.catalogResp li.product_id)) = true
  · by_cases hB : jsTruthyS (calUriFor env
        ((getCalendlyEventHandle (env.catalogResp li.product_id)).getD "")) = true
    · simp [processLineItemCal, bind_eff, getCalendlyEventHandleEff_apply,
        getCalendlyEventTypeUriEff_apply, hA, hB]
    · rw [Bool.not_eq_true] at hB
      simp [processLineItemCal, bind_eff, getCalendlyEventHandleEff_apply,
        getCalendlyEventTypeUriEff_apply, hA, hB, pure_eff]
  · rw [Bool.not_eq_true] at hA
    simp [processLineItemCal, bind_eff, getCalendlyEventHandleEff_apply, hA, pure_eff]

theorem processLineItemCal_miss (env : CalEnv) (em fn ln : Option String) (li : LineItem)
    (hmiss : calHit env li = false) (s : List Step) :
    processLineItemCal env em fn ln li s = (Except.ok [], s ++ missTraceCal env li) := by
  rw [processLineItemCal_apply]
  unfold calHit at hmiss
  by_cases hA : jsTruthyS (getCalendlyEventHandle (env.catalogResp li.product_id)) = true
  · have hB : jsTruthyS (calUriFor env
        ((getCalendlyEventHandle (env.catalogResp li.product_id)).getD "")) = false := by
      rw [hA] at hmiss
      simpa using hmiss
    simp [hA, hB, missTraceCal]
  · rw [Bool.not_eq_true] at hA
    simp [hA, missTraceCal]

theorem processLineItemCal_ok_titles (env : CalEnv) (em fn ln : Option String)
    (li : LineItem) (s s2 : List Step) (links : List SchedLink)
    (h : processLineItemCal env em fn ln li s = (Except.ok links, s2)) :
    links.map SchedLink.title =
      (if calHit env li then ticketTitles li.title 0 li.quantity else []) := by
  rw [processLineItemCal_apply] at h
  unfold calHit
  by_cases hA : jsTruthyS (getCalendlyEventHandle (env.catalogResp li.product_id)) = true
  · by_cases hB : jsTruthyS (calUriFor env
        ((getCalendlyEventHandle (env.catalogResp li.product_id)).getD "")) = true
    · rw [if_pos hA, if_pos hB] at h
      rw [hA, hB]
      simpa using unitsLoopCal_ok_titles env em fn ln li.title _ li.quantity 0 _ _ links h
    · rw [Bool.not_eq_true] at hB
      rw [if_pos hA, hB] at h
      simp only [if_false, Prod.mk.injEq, Except.ok.injEq, Bool.false_eq_true] at h
      rw [← h.1, hA, hB]
      rfl
  · rw [Bool.not_eq_true] at hA
    rw [hA] at h
    simp only [if_false, Prod.mk.injEq, Except.ok.injEq, Bool.false_eq_true] at h
    rw [← h.1, hA]
    rfl

theorem processLineItemCal_trace (env : CalEnv) (em fn ln : Option String)
    (li : LineItem) (s : List Step) :
    ∃ tr, (processLineItemCal env em fn ln li s).2 = s ++ tr ∧
      ∀ st ∈ tr, isEnrichStep st = true := by
  rw [processLineItemCal_apply]
  by_cases hA : jsTruthyS (getCalendlyEventHandle (env.catalogResp li.product_id)) = true
  · by_cases hB : jsTruthyS (calUriFor env
        ((getCalendlyEventHandle (env.catalogResp li.product_id)).getD "")) = true
    · rw [if_pos hA, if_pos hB]
      obtain ⟨t2, ht2, hall⟩ :=
        unitsLoopCal_trace env em fn ln li.title
          ((calUriFor env
             ((getCalendlyEventHandle (env.catalogResp li.product_id)).getD "")).getD "")
          li.quantity 0 (s ++ [Step.catalog li.product_id] ++ uriTraceSteps env)
      refine ⟨Step.catalog li.product_id :: (uriTraceSteps env ++ t2), ?_, ?_⟩
      · rw [ht2]
        simp
      · intro st hst
        rcases List.mem_cons.mp hst with h1 | h1
        · rw [h1]; rfl
        · rcases List.mem_append.mp h1 with h2 | h2
          · exact uriTraceSteps_enrich env st h2
          · exact hall st h2
    · rw [Bool.not_eq_true] at hB
      rw [if_pos hA, hB]
      refine ⟨Step.catalog li.product_id :: uriTraceSteps env, by simp, ?_⟩
      intro st hst
      rcases List.mem_cons.mp hst with h1 | h1
      · rw [h1]; rfl
      · exact uriTraceSteps_enrich env st h1
  · rw [Bool.not_eq_true] at hA
    rw [hA]
    refine ⟨[Step.catalog li.product_id], by simp, ?_⟩
    intro st hst
    simp at hst
    rw [hst]
    rfl

theorem processLineItemCal_hit_createfail (env : CalEnv) (em fn ln : Option String)
    (li : LineItem) (s : List Step) (hhit : calHit env li = true)
    (hq : 0 < li.quantity) (hfail : ∀ k, env.createLinkResp k = Except.error ()) :
    (processLineItemCal env em fn ln li s).1 = Except.error () := by
  unfold calHit at hhit
  rw [Bool.and_eq_true] at hhit
  obtain ⟨m, hm⟩ : ∃ m, li.quantity = m + 1 := ⟨li.quantity - 1, by omega⟩
  rw [processLineItemCal_apply, if_pos hhit.1, if_pos hhit.2, hm,
    unitsLoopCal_succ_apply, hfail]

/-- On a successful pass, the accumulated titles are exactly the spec-side
title sequence: line items in payload order, quantity per-unit titles on a
hit, nothing on a miss. -/
theorem calLineItemsLoop_ok_titles (env : CalEnv) (em fn ln : Option String) :
    ∀ (items : List LineItem) (s s2 : List Step) (links : List SchedLink),
      calLineItemsLoop env em fn ln items s = (Except.ok links, s2) →
      links.map SchedLink.title = calTitlesSpec env items := by
  intro items
  induction items with
  | nil =>
    intro s s2 links h
    simp only [calLineItemsLoop, pure_eff, Prod.mk.injEq, Except.ok.injEq] at h
    rw [← h.1]
    rfl
  | cons li rest ih =>
    intro s s2 links h
    simp only [calLineItemsLoop] at h
    obtain ⟨a, s1, ha, h⟩ := bind_ok h
    obtain ⟨b, s3, hb, h⟩ := bind_ok h
    change (Except.ok (a ++ b), s3) = (Except.ok links, s2) at h
    simp only [Prod.mk.injEq, Except.ok.injEq] at h
    rw [← h.1]
    simp only [calTitlesSpec, concatMap, List.map_append]
    rw [processLineItemCal_ok_titles env em fn ln li s s1 a ha]
    exact congrArg _ (ih s1 s3 b hb)

theorem calLineItemsLoop_trace (env : CalEnv) (em fn ln : Option String) :
    ∀ (items : List LineItem) (s : List Step),
      ∃ tr, (calLineItemsLoop env em fn ln items s).2 = s ++ tr ∧
        ∀ st ∈ tr, isEnrichStep st = true := by
  intro items
  induction items with
  | nil =>
    intro s
    exact ⟨[], by simp [calLineItemsLoop, pure_eff], by simp⟩
  | cons li rest ih =>
    intro s
    obtain ⟨t1, ht1, hall1⟩ := processLineItemCal_trace env em fn ln li s
    rcases hp : processLineItemCal env em fn ln li s with ⟨r1, s1⟩
    rw [hp] at ht1
    cases r1 with
    | error e =>
      refine ⟨t1, ?_, hall1⟩
      simp only [calLineItemsLoop, bind_eff, hp]
      exact ht1
    | ok a =>
      obtain ⟨t2, ht2, hall2⟩ := ih s1
      rcases hr : calLineItemsLoop env em fn ln rest s1 with ⟨r2, s3⟩
      rw [hr] at ht2
      dsimp only at ht1 ht2
      refine ⟨t1 ++ t2, ?_, ?_⟩
      · simp only [calLineItemsLoop, bind_eff, hp, hr]
        cases r2 with
        | ok b =>
          change s3 = _
          rw [ht2, ht1, List.append_assoc]
        | error e2 =>
          change s3 = _
          rw [ht2, ht1, List.append_assoc]
      · intro st hst
        rcases List.mem_append.mp hst with h1 | h1
        · exact hall1 st h1
        · exact hall2 st h1

/-- When every line item misses, the loop succeeds with no links, issuing
only the lookup calls of each item in order. -/
theorem calLineItemsLoop_allMiss (env : CalEnv) (em fn ln : Option String) :
    ∀ (items : List LineItem) (s : List Step),
      (∀ li ∈ items, calHit env li = false) →
      calLineItemsLoop env em fn ln items s =
        (Except.ok [], s ++ concatMap (missTraceCal env) items) := by
  intro items
  induction items with
  | nil => intro s _; simp [calLineItemsLoop, concatMap, pure_eff]
  | cons li rest ih =>
    intro s hmiss
    have h1 := processLineItemCal_miss env em fn ln li (hmiss li (by simp)) s
    have h2 := ih (s ++ missTraceCal env li) (fun x hx => hmiss x (by simp [hx]))
    simp only [calLineItemsLoop, bind_eff, h1, h2, pure_eff, concatMap]
    simp [List.append_assoc]

/-- A scheduling-link creation failure on the first (hitting) line item
aborts the whole loop with an exception. -/
theorem calLineItemsLoop_head_createfail (env : CalEnv) (em fn ln : Option String)
    (li : LineItem) (rest : List LineItem) (s : List Step)
    (hhit : calHit env li = true) (hq : 0 < li.quantity)
    (hfail : ∀ k, env.createLinkResp k = Except.error ()) :
    (calLineItemsLoop env em fn ln (li :: rest) s).1 = Except.error () := by
  have h1 := processLineItemCal_hit_createfail env em fn ln li s hhit hq hfail
  rcases hp : processLineItemCal env em fn ln li s with ⟨r1, s1⟩
  rw [hp] at h1
  simp only at h1
  rw [h1] at hp
  simp [calLineItemsLoop, bind_eff, hp]

theorem calTitlesSpec_length_le (env : CalEnv) (items : List LineItem) :
    (calTitlesSpec env items).length ≤ sumQuantities items := by
  induction items with
  | nil => simp [calTitlesSpec, concatMap, sumQuantities]
  | cons li rest ih =>
    simp only [calTitlesSpec, concatMap, sumQuantities, List.map_cons, List.sum_cons,
      List.length_append] at ih ⊢
    by_cases hh : calHit env li = true
    · rw [if_pos hh, ticketTitles_length]
      omega
    · rw [Bool.not_eq_true] at hh
      rw [hh]
      simp only [Bool.false_eq_true, if_false, List.length_nil]
      omega

/- ===== Annotator and tracker behavior ===== -/

/-- The annotator succeeds exactly on a clean mutation response: no
transport error, no top-level errors value, an orderUpdate payload, and an
empty userErrors array. -/
theorem addNoteToShopifyOrderCal_ok (env : CalEnv) (oid : Nat) (links : List SchedLink)
    (s : List Step) (nr : NoteResp) (hnr : env.noteResp = Except.ok nr)
    (hne : nr.errors = none) (ou : OrderUpdateResult) (hou : nr.orderUpdate = some ou)
    (hue : ou.userErrors = []) :
    addNoteToShopifyOrderCal env oid links s =
      (Except.ok (), s ++ [Step.shopifyNoteUpdate oid (noteTextCal links)]) := by
  simp [addNoteToShopifyOrderCal, bind_eff, effEmit_apply, hnr, hne, hou, hue, pure_eff]

/-- A truthy top-level errors value, or a non-empty userErrors array (or a
missing orderUpdate payload), makes the annotator throw. -/
theorem addNoteToShopifyOrderCal_fail (env : CalEnv) (oid : Nat) (links : List SchedLink)
    (s : List Step) (nr : NoteResp) (hnr : env.noteResp = Except.ok nr)
    (hbad : nr.errors.isSome = true ∨ nr.orderUpdate = none ∨
      ∃ ou, nr.orderUpdate = some ou ∧ 0 < ou.userErrors.length) :
    addNoteToShopifyOrderCal env oid links s =
      (Except.error (), s ++ [Step.shopifyNoteUpdate oid (noteTextCal links)]) := by
  by_cases herr : nr.errors.isSome = true
  · simp [addNoteToShopifyOrderCal, bind_eff, effEmit_apply, hnr, herr, effThrow_apply]
  · rw [Bool.not_eq_true] at herr
    rcases hbad with hbad | hbad | hbad
    · rw [hbad] at herr; cases herr
    · simp [addNoteToShopifyOrderCal, bind_eff, effEmit_apply, hnr, herr, hbad, effThrow_apply]
    · obtain ⟨ou, hou, hue⟩ := hbad
      simp [addNoteToShopifyOrderCal, bind_eff, effEmit_apply, hnr, herr, hou, hue,
        effThrow_apply]

/-- The part_000 tracker returns without posting when the email is empty. -/
theorem trackKlaviyoEventCal_empty (env : CalEnv) (fn ln : String) (oid : Nat)
    (s : List Step) :
    trackKlaviyoEventCal env "" fn ln oid s = (Except.ok (), s) := rfl

/-- With a non-empty email the part_000 tracker posts once; the outcome is
the POST outcome. -/
theorem trackKlaviyoEventCal_post (env : CalEnv) (em fn ln : String) (oid : Nat)
    (s : List Step) (hem : em ≠ "") :
    trackKlaviyoEventCal env em fn ln oid s =
      (env.trackResp, s ++ [Step.klaviyoTrack em fn ln oid]) := by
  simp [trackKlaviyoEventCal, hem, bind_eff, effEmit_apply, liftE_apply]

/- ===== Status closure of the three handlers ===== -/

theorem handlerCalAfterVerify_ok (env : CalEnv) (event : EventReq) (s s2 : List Step)
    (r : Resp) (h : handlerCalAfterVerify env event s = (Except.ok r, s2)) : r = resp200 := by
  unfold handlerCalAfterVerify at h
  obtain ⟨u, s1, h1, h⟩ := bind_ok h
  obtain ⟨order, sa, h2, h⟩ := bind_ok h
  obtain ⟨items, sb, h3, h⟩ := bind_ok h
  obtain ⟨links, sc, h4, h⟩ := bind_ok h
  by_cases hlen : 0 < links.length
  · rw [if_pos hlen] at h
    obtain ⟨u2, sd, h5, h⟩ := bind_ok h
    obtain ⟨u3, se, h6, h⟩ := bind_ok h
    change (Except.ok resp200, se) = _ at h
    simp only [Prod.mk.injEq, Except.ok.injEq] at h
    exact h.1.symm
  · rw [if_neg hlen] at h
    change (Except.ok resp200, sc) = _ at h
    simp only [Prod.mk.injEq, Except.ok.injEq] at h
    exact h.1.symm

theorem handlerOrigAfterVerify_ok (env : CalEnv) (event : EventReq) (s s2 : List Step)
    (r : Resp) (h : handlerOrigAfterVerify env event s = (Except.ok r, s2)) : r = resp200 := by
  unfold handlerOrigAfterVerify at h
  obtain ⟨u, s1, h1, h⟩ := bind_ok h
  obtain ⟨order, sa, h2, h⟩ := bind_ok h
  obtain ⟨customer, sb, h3, h⟩ := bind_ok h
  obtain ⟨items, sc, h4, h⟩ := bind_ok h
  obtain ⟨links, sd, h5, h⟩ := bind_ok h
  by_cases hlen : 0 < links.length
  · rw [if_pos hlen] at h
    obtain ⟨u2, se, h6, h⟩ := bind_ok h
    obtain ⟨u3, sf, h7, h⟩ := bind_ok h
    change (Except.ok resp200, sf) = _ at h
    simp only [Prod.mk.injEq, Except.ok.injEq] at h
    exact h.1.symm
  · rw [if_neg hlen] at h
    change (Except.ok resp200, sd) = _ at h
    simp only [Prod.mk.injEq, Except.ok.injEq] at h
    exact h.1.symm

theorem handlerMetaAfterVerify_ok (env : MetaEnv) (event : EventReq) (s s2 : List Step)
    (r : Resp) (h : handlerMetaAfterVerify env event s = (Except.ok r, s2)) : r = resp200 := by
  unfold handlerMetaAfterVerify at h
  obtain ⟨u, s1, h1, h⟩ := bind_ok h
  obtain ⟨order, sa, h2, h⟩ := bind_ok h
  obtain ⟨items, sb, h3, h⟩ := bind_ok h
  obtain ⟨eps, sc, h4, h⟩ := bind_ok h
  by_cases hlen : 0 < eps.length
  · rw [if_pos hlen] at h
    obtain ⟨u2, sd, h5, h⟩ := bind_ok h
    obtain ⟨u3, se, h6, h⟩ := bind_ok h
    change (Except.ok resp200, se) = _ at h
    simp only [Prod.mk.injEq, Except.ok.injEq] at h
    exact h.1.symm
  · rw [if_neg hlen] at h
    change (Except.ok resp200, sc) = _ at h
    simp only [Prod.mk.injEq, Except.ok.injEq] at h
    exact h.1.symm

theorem handlerCal_status (env : CalEnv) (event : EventReq) :
    (handlerCal env event).1 = resp200 ∨ (handlerCal env event).1 = resp401 ∨
      (handlerCal env event).1 = resp500 := by
  unfold handlerCal
  by_cases hv : verifyShopifyWebhook env.secret (event.headers "x-shopify-hmac-sha256")
      event.body = true
  · rcases hrun : handlerCalAfterVerify env event [] with ⟨rr, s⟩
    cases rr with
    | ok r =>
      have := handlerCalAfterVerify_ok env event [] s r hrun
      simp [hv, hrun, this]
    | error e => simp [hv, hrun]
  · rw [Bool.not_eq_true] at hv
    simp [hv]

theorem handlerOrig_status (env : CalEnv) (event : EventReq) :
    (handlerOrig env event).1 = resp200 ∨ (handlerOrig env event).1 = resp401 ∨
      (handlerOrig env event).1 = resp500 := by
  unfold handlerOrig
  by_cases hv : verifyShopifyWebhook env.secret (event.headers "x-shopify-hmac-sha256")
      event.body = true
  · rcases hrun : handlerOrigAfterVerify env event [] with ⟨rr, s⟩
    cases rr with
    | ok r =>
      have := handlerOrigAfterVerify_ok env event [] s r hrun
      simp [hv, hrun, this]
    | error e => simp [hv, hrun]
  · rw [Bool.not_eq_true] at hv
    simp [hv]

theorem handlerMeta_status (env : MetaEnv) (event : EventReq) :
    (handlerMeta env event).1 = resp200 ∨ (handlerMeta env event).1 = resp401 ∨
      (handlerMeta env event).1 = resp500 := by
  unfold handlerMeta
  by_cases hv : verifyShopifyWebhook env.secret (metaHmacHeader event.headers)
      event.body = true
  · rcases hrun : handlerMetaAfterVerify env event [] with ⟨rr, s⟩
    cases rr with
    | ok r =>
      have := handlerMetaAfterVerify_ok env event [] s r hrun
      simp [hv, hrun, this]
    | error e => simp [hv, hrun]
  · rw [Bool.not_eq_true] at hv
    simp [hv]

/- ===== Handler runs under specific external outcomes ===== -/

theorem handlerCal_verified (env : CalEnv) (event : EventReq)
    (hv : verifyShopifyWebhook env.secret (event.headers "x-shopify-hmac-sha256")
      event.body = true) :
    handlerCal env event =
      (match handlerCalAfterVerify env event [] with
       | (Except.ok r, s) => (r, s)
       | (Except.error _, s) => (resp500, s)) := by
  simp [handlerCal, hv]

theorem handlerOrig_verified (env : CalEnv) (event : EventReq)
    (hv : verifyShopifyWebhook env.secret (event.headers "x-shopify-hmac-sha256")
      event.body = true) :
    handlerOrig env event =
      (match handlerOrigAfterVerify env event [] with
       | (Except.ok r, s) => (r, s)
       | (Except.error _, s) => (resp500, s)) := by
  simp [handlerOrig, hv]

theorem handlerMeta_verified (env : MetaEnv) (event : EventReq)
    (hv : verifyShopifyWebhook env.secret (metaHmacHeader event.headers) event.body = true) :
    handlerMeta env event =
      (match handlerMetaAfterVerify env event [] with
       | (Except.ok r, s) => (r, s)
       | (Except.error _, s) => (resp500, s)) := by
  simp [handlerMeta, hv]

/-- A JSON.parse failure after successful verification: the 500 response,
with no external call issued. -/
theorem handlerCal_parse_error (env : CalEnv) (event : EventReq)
    (hv : verifyShopifyWebhook env.secret (event.headers "x-shopify-hmac-sha256")
      event.body = true)
    (hp : env.parseJson event.body = Except.error ()) :
    handlerCal env event = (resp500, [Step.parseBody]) := by
  simp [handlerCal, hv, handlerCalAfterVerify, bind_eff, effEmit_apply, liftE_apply, hp]

theorem handlerOrig_parse_error (env : CalEnv) (event : EventReq)
    (hv : verifyShopifyWebhook env.secret (event.headers "x-shopify-hmac-sha256")
      event.body = true)
    (hp : env.parseJson event.body = Except.error ()) :
    handlerOrig env event = (resp500, [Step.parseBody]) := by
  simp [handlerOrig, hv, handlerOrigAfterVerify, bind_eff, effEmit_apply, liftE_apply, hp]

theorem handlerMeta_parse_error (env : MetaEnv) (event : EventReq)
    (hv : verifyShopifyWebhook env.secret (metaHmacHeader event.headers) event.body = true)
    (hp : env.parseJson event.body = Except.error ()) :
    handlerMeta env event = (resp500, [Step.parseBody]) := by
  simp [handlerMeta, hv, handlerMetaAfterVerify, bind_eff, effEmit_apply, liftE_apply, hp]

/-- A payload without a line-item array: the line-item iteration throws and
the Calendly handler responds 500 (no external call was issued). -/
theorem handlerCal_no_line_items (env : CalEnv) (event : EventReq) (order : OrderVal)
    (hv : verifyShopifyWebhook env.secret (event.headers "x-shopify-hmac-sha256")
      event.body = true)
    (hp : env.parseJson event.body = Except.ok order)
    (hli : order.line_items = none) :
    handlerCal env event = (resp500, [Step.parseBody]) := by
  simp [handlerCal, hv, handlerCalAfterVerify, bind_eff, effEmit_apply, liftE_apply, hp,
    hli, jsField, effThrow_apply]

theorem handlerMeta_no_line_items (env : MetaEnv) (event : EventReq) (order : OrderVal)
    (hv : verifyShopifyWebhook env.secret (metaHmacHeader event.headers) event.body = true)
    (hp : env.parseJson event.body = Except.ok order)
    (hli : order.line_items = none) :
    handlerMeta env event = (resp500, [Step.parseBody]) := by
  simp [handlerMeta, hv, handlerMetaAfterVerify, bind_eff, effEmit_apply, liftE_apply, hp,
    hli, jsField, effThrow_apply]

/-- A payload without a customer object makes the original handler throw on
`order.customer.first_name` and respond 500. -/
theorem handlerOrig_no_customer (env : CalEnv) (event : EventReq) (order : OrderVal)
    (hv : verifyShopifyWebhook env.secret (event.headers "x-shopify-hmac-sha256")
      event.body = true)
    (hp : env.parseJson event.body = Except.ok order)
    (hc : order.customer = none) :
    handlerOrig env event = (resp500, [Step.parseBody]) := by
  simp [handlerOrig, hv, handlerOrigAfterVerify, bind_eff, effEmit_apply, liftE_apply, hp,
    hc, jsField, effThrow_apply]

/-- An empty line-item array: empty enrichment pass, no external call, 200. -/
theorem handlerCal_empty_items (env : CalEnv) (event : EventReq) (order : OrderVal)
    (hv : verifyShopifyWebhook env.secret (event.headers "x-shopify-hmac-sha256")
      event.body = true)
    (hp : env.parseJson event.body = Except.ok order)
    (hli : order.line_items = some []) :
    handlerCal env event = (resp200, [Step.parseBody]) := by
  simp [handlerCal, hv, handlerCalAfterVerify, bind_eff, effEmit_apply, liftE_apply, hp,
    hli, jsField, calLineItemsLoop, pure_eff]

theorem handlerMeta_empty_items (env : MetaEnv) (event : EventReq) (order : OrderVal)
    (hv : verifyShopifyWebhook env.secret (metaHmacHeader event.headers) event.body = true)
    (hp : env.parseJson event.body = Except.ok order)
    (hli : order.line_items = some []) :
    handlerMeta env event = (resp200, [Step.parseBody]) := by
  simp [handlerMeta, hv, handlerMetaAfterVerify, bind_eff, effEmit_apply, liftE_apply, hp,
    hli, jsField, metaLineItemsLoop, pure_eff]

/-- When every line item misses, the Calendly handler completes with 200
after issuing only the per-item lookup calls, in payload order. -/
theorem handlerCal_allMiss (env : CalEnv) (event : EventReq) (order : OrderVal)
    (items : List LineItem)
    (hv : verifyShopifyWebhook env.secret (event.headers "x-shopify-hmac-sha256")
      event.body = true)
    (hp : env.parseJson event.body = Except.ok order)
    (hli : order.line_items = some items)
    (hmiss : ∀ li ∈ items, calHit env li = false) :
    handlerCal env event =
      (resp200, Step.parseBody :: concatMap (missTraceCal env) items) := by
  have hloop := calLineItemsLoop_allMiss env (some (extractCustomerEmail order))
    (some (extractFirstName order)) (some (extractLastName order)) items
    [Step.parseBody] hmiss
  simp [handlerCal, hv, handlerCalAfterVerify, bind_eff, effEmit_apply, liftE_apply, hp,
    hli, jsField, hloop, pure_eff]

/-- A scheduling-link creation failure on the first (hitting) line item
makes the Calendly handler respond 500. -/
theorem handlerCal_createfail (env : CalEnv) (event : EventReq) (order : OrderVal)
    (li : LineItem) (rest : List LineItem)
    (hv : verifyShopifyWebhook env.secret (event.headers "x-shopify-hmac-sha256")
      event.body = true)
    (hp : env.parseJson event.body = Except.ok order)
    (hli : order.line_items = some (li :: rest))
    (hhit : calHit env li = true) (hq : 0 < li.quantity)
    (hfail : ∀ k, env.createLinkResp k = Except.error ()) :
    (handlerCal env event).1 = resp500 := by
  have hloop := calLineItemsLoop_head_createfail env (some (extractCustomerEmail order))
    (some (extractFirstName order)) (some (extractLastName order)) li rest
    [Step.parseBody] hhit hq hfail
  rcases hl : calLineItemsLoop env (some (extractCustomerEmail order))
      (some (extractFirstName order)) (some (extractLastName order)) (li :: rest)
      [Step.parseBody] with ⟨rl, sl⟩
  rw [hl] at hloop
  simp only at hloop
  rw [hloop] at hl
  simp [handlerCal, hv, handlerCalAfterVerify, bind_eff, effEmit_apply, liftE_apply, hp,
    hli, jsField, hl]

/-- The Calendly handler with an empty extracted email but a non-empty link
list: the Klaviyo POST is skipped, the order note is still written, 200. -/
theorem handlerCal_skipTrack (env : CalEnv) (event : EventReq) (order : OrderVal)
    (items : List LineItem) (links : List SchedLink) (s2 : List Step)
    (nr : NoteResp) (ou : OrderUpdateResult)
    (hv : verifyShopifyWebhook env.secret (event.headers "x-shopify-hmac-sha256")
      event.body = true)
    (hp : env.parseJson event.body = Except.ok order)
    (hli : order.line_items = some items)
    (hloop : calLineItemsLoop env (some (extractCustomerEmail order))
        (some (extractFirstName order)) (some (extractLastName order)) items
        [Step.parseBody] = (Except.ok links, s2))
    (hlen : 0 < links.length)
    (hemail : extractCustomerEmail order = "")
    (hnr : env.noteResp = Except.ok nr) (hne : nr.errors = none)
    (hou : nr.orderUpdate = some ou) (hue : ou.userErrors = []) :
    handlerCal env event =
      (resp200, s2 ++ [Step.shopifyNoteUpdate order.id (noteTextCal links)]) := by
  have hnote := addNoteToShopifyOrderCal_ok env order.id links s2 nr hnr hne ou hou hue
  rw [hemail] at hloop
  simp [handlerCal, hv, handlerCalAfterVerify, bind_eff, effEmit_apply, liftE_apply, hp,
    hli, jsField, hloop, hlen, hemail, pure_eff, hnote]

/-- The Calendly handler when the tracker succeeded but the order-note
mutation reports errors: the annotator rethrows and the invocation responds
500; the trace shows the tracking POST was already issued. -/
theorem handlerCal_noteFail (env : CalEnv) (event : EventReq) (order : OrderVal)
    (items : List LineItem) (links : List SchedLink) (s2 : List Step) (nr : NoteResp)
    (hv : verifyShopifyWebhook env.secret (event.headers "x-shopify-hmac-sha256")
      event.body = true)
    (hp : env.parseJson event.body = Except.ok order)
    (hli : order.line_items = some items)
    (hloop : calLineItemsLoop env (some (extractCustomerEmail order))
        (some (extractFirstName order)) (some (extractLastName order)) items
        [Step.parseBody] = (Except.ok links, s2))
    (hlen : 0 < links.length)
    (hemail : extractCustomerEmail order ≠ "")
    (htrack : env.trackResp = Except.ok ())
    (hnr : env.noteResp = Except.ok nr)
    (hbad : nr.errors.isSome = true ∨ nr.orderUpdate = none ∨
      ∃ ou, nr.orderUpdate = some ou ∧ 0 < ou.userErrors.length) :
    handlerCal env event =
      (resp500,
       s2 ++ [Step.klaviyoTrack (extractCustomerEmail order) (extractFirstName order)
                (extractLastName order) order.id,
              Step.shopifyNoteUpdate order.id (noteTextCal links)]) := by
  have htr := trackKlaviyoEventCal_post env (extractCustomerEmail order)
    (extractFirstName order) (extractLastName order) order.id s2 hemail
  have hnote := addNoteToShopifyOrderCal_fail env order.id links
    (s2 ++ [Step.klaviyoTrack (extractCustomerEmail order) (extractFirstName order)
      (extractLastName order) order.id]) nr hnr hbad
  simp [handlerCal, hv, handlerCalAfterVerify, bind_eff, effEmit_apply, liftE_apply, hp,
    hli, jsField, hloop, hlen, hemail, htr, htrack, hnote, pure_eff]

/- ===== Bit-flip and digest-shape lemmas ===== -/

theorem xor_shiftLeft_ne (x b : Nat) : x ^^^ (1 <<< b) ≠ x := by
  intro heq
  have hz : (1 <<< b) ≠ 0 := by
    rw [Nat.shiftLeft_eq]
    have := Nat.two_pow_pos b
    omega
  have h2 : x ^^^ (x ^^^ (1 <<< b)) = x ^^^ x := by rw [heq]
  rw [← Nat.xor_assoc, Nat.xor_self, Nat.zero_xor] at h2
  exact hz h2

theorem list_set_getD (l : List Nat) (i v : Nat) (h : i < l.length) :
    (l.set i v).getD i 0 = v := by
  induction l generalizing i with
  | nil => simp at h
  | cons a t ih =>
    cases i with
    | zero => rfl
    | succ j => simpa using ih j (by simpa using h)

/-- Flipping one bit of one code unit always yields a different string. -/
theorem flipBit_ne (s : CodeUnits) (i b : Nat) (hi : i < s.length) :
    flipBit s i b ≠ s := by
  intro heq
  have h1 : (flipBit s i b).getD i 0 = s.getD i 0 := by rw [heq]
  rw [flipBit, list_set_getD s i _ hi] at h1
  exact xor_shiftLeft_ne (s.getD i 0) b h1

theorem sha256_length (msg : Bytes) : (sha256 msg).length = 32 := by
  simp [sha256, bytesBE]

theorem hmacSha256_length (key msg : Bytes) : (hmacSha256 key msg).length = 32 := by
  simp [hmacSha256, sha256_length]

theorem base64Encode_length_pos (bs : Bytes) (h : bs.length = 32) :
    0 < (base64Encode bs).length := by
  cases bs with
  | nil => simp at h
  | cons b1 t1 =>
    cases t1 with
    | nil => simp at h
    | cons b2 t2 =>
      cases t2 with
      | nil => simp at h
      | cons b3 t3 => simp [base64Encode]

/-- The digest string is never empty (a 32-byte digest encodes to 44
base64 characters). -/
theorem generatedHash_length_pos (secret body : CodeUnits) :
    0 < (generatedHash secret body).length := by
  unfold generatedHash
  exact base64Encode_length_pos _ (hmacSha256_length _ _)

/-- Any single-bit mutation of the claimed signature header is rejected. -/
theorem verify_flipBit_false (secret body : CodeUnits) (i b : Nat)
    (hi : i < (generatedHash secret body).length) :
    verifyShopifyWebhook secret (some (flipBit (generatedHash secret body) i b)) body =
      false := by
  unfold verifyShopifyWebhook
  apply decide_eq_false
  intro heq
  exact flipBit_ne _ i b hi heq.symm

/-- Two bodies with the same UTF-8 serialization have the same digest, so a
header valid for one verifies against the other. -/
theorem verify_utf8_equal (secret body body2 : CodeUnits)
    (h : utf16ToUtf8 body2 = utf16ToUtf8 body) :
    verifyShopifyWebhook secret (some (generatedHash secret body)) body2 = true := by
  unfold verifyShopifyWebhook
  apply decide_eq_true
  unfold generatedHash
  rw [h]

theorem jsOrHeader_some (l : CodeUnits) (hl : l ≠ []) (b : Option CodeUnits) :
    jsOrHeader (some l) b = some l := by
  cases l with
  | nil => exact absurd rfl hl
  | cons c t => rfl

/- ===== Small list helpers ===== -/

theorem mem_concatMap {α β : Type} (f : α → List β) (l : List α) (x : α) (hx : x ∈ l)
    (b : β) (hb : b ∈ f x) : b ∈ concatMap f l := by
  induction l with
  | nil => simp at hx
  | cons a t ih =>
    rcases List.mem_cons.mp hx with h1 | h1
    · rw [h1] at hb
      exact List.mem_append.mpr (Or.inl hb)
    · exact List.mem_append.mpr (Or.inr (ih h1))

theorem filter_false_nil (p : Step → Bool) :
    ∀ (l : List Step), (∀ st ∈ l, p st = false) → l.filter p = [] := by
  intro l
  induction l with
  | nil => intro _; rfl
  | cons a t ih =>
    intro h
    have ha := h a (by simp)
    simp [List.filter_cons, ha, ih (fun st hst => h st (by simp [hst]))]

/- ===== Concrete fixtures for witnesses and counterexamples ===== -/

/-- The webhook secret "s3cr3t" as code units. -/
def secret0 : CodeUnits := [115, 51, 99, 114, 51, 116]

/-- The raw body string (its JSON content is delivered by the parse
oracle, so only its identity matters here). -/
def body0 : CodeUnits := [123, 125]

/-- Headers carrying the correct signature under the lowercase key. -/
def goodHeaders : String → Option CodeUnits := fun k =>
  if k = "x-shopify-hmac-sha256" then some (generatedHash secret0 body0) else none

def eventGood : EventReq := ⟨goodHeaders, body0⟩

/-- Headers with no signature at all. -/
def eventNoHeader : EventReq := ⟨fun _ => none, body0⟩

theorem eventGood_verify :
    verifyShopifyWebhook secret0 (eventGood.headers "x-shopify-hmac-sha256")
      eventGood.body = true := by
  have hh : eventGood.headers "x-shopify-hmac-sha256" =
      some (generatedHash secret0 body0) := by
    simp [eventGood, goodHeaders]
  rw [show eventGood.body = body0 from rfl, hh]
  exact verify_genHash secret0 body0

/-- A line item whose product resolves to a Calendly handle, quantity 2. -/
def liHit : LineItem := ⟨101, 2, "Concert A"⟩

/-- A line item whose product has no event metafield, quantity 1. -/
def liMiss : LineItem := ⟨202, 1, "Workshop B"⟩

def catalogHitCal : CatalogResp :=
  ⟨none, some ⟨some ⟨some ⟨[("calendly_event_url_handle", "evt-a")]⟩⟩⟩⟩

def catalogMiss : CatalogResp := ⟨none, some ⟨none⟩⟩

def catalogHitMeta : CatalogResp :=
  ⟨none, some ⟨some ⟨some ⟨[("event.title", "Gala"), ("event.address", "1 Main St")]⟩⟩⟩⟩

/-- An order with a top-level email, no customer object, two line items. -/
def order2 : OrderVal :=
  ⟨1, "2024-01-01T00:00:00Z", some "a@b.c", none, none, none, some [liHit, liMiss]⟩

/-- An order with no identity fields at all and one matching line item. -/
def orderNoEmail : OrderVal := ⟨1, "2024-01-01T00:00:00Z", none, none, none, none, some [liHit]⟩

/-- An order without a customer object and an empty line-item array. -/
def orderNoCustomer : OrderVal := ⟨1, "2024-01-01T00:00:00Z", none, none, none, none, some []⟩

/-- An order with a customer object but no line-item array. -/
def orderNoItems : OrderVal :=
  ⟨1, "2024-01-01T00:00:00Z", some "a@b.c", none, some ⟨some "a@b.c", some "Ann", some "Lee"⟩,
   none, none⟩

def noteOk : NoteResp := ⟨none, some ⟨[]⟩⟩

/-- A mutation response carrying a GraphQL error array. -/
def noteBadErrors : NoteResp := ⟨some ["shop is locked"], some ⟨[]⟩⟩

/-- A mutation response carrying a non-empty userErrors array. -/
def noteBadUser : NoteResp := ⟨none, some ⟨["note too long"]⟩⟩

def envCalBase : CalEnv :=
  { secret := secret0
  , parseJson := fun _ => Except.ok order2
  , catalogResp := fun pid =>
      if pid = 101 then Except.ok catalogHitCal else Except.ok catalogMiss
  , usersMeResp := Except.ok "https://api.calendly.com/users/u1"
  , eventTypesResp := fun _ =>
      Except.ok [⟨"evt-a", "https://api.calendly.com/event_types/e1"⟩]
  , createLinkResp := fun k => Except.ok ⟨"https://calendly.com/d/link-" ++ toString k⟩
  , trackResp := Except.ok ()
  , noteResp := Except.ok noteOk }

def envCreateFail : CalEnv := { envCalBase with createLinkResp := fun _ => Except.error () }

def envNoEmail : CalEnv := { envCalBase with parseJson := fun _ => Except.ok orderNoEmail }

def envNoCustomer : CalEnv := { envCalBase with parseJson := fun _ => Except.ok orderNoCustomer }

def envNoItems : CalEnv := { envCalBase with parseJson := fun _ => Except.ok orderNoItems }

def envParseFail : CalEnv := { envCalBase with parseJson := fun _ => Except.error () }

def envNoteFail : CalEnv := { envCalBase with noteResp := Except.ok noteBadErrors }

/-- One metaobject-variant line item: product 7 carries event data. -/
def orderMeta : OrderVal :=
  ⟨1, "2024-01-01T00:00:00Z", none, none, none, none, some [⟨7, 1, "Gala ticket"⟩]⟩

def envMetaBase : MetaEnv :=
  { secret := secret0
  , parseJson := fun _ => Except.ok orderMeta
  , catalogResp := fun pid =>
      if pid = 7 then Except.ok catalogHitMeta else Except.ok catalogMiss
  , toIso := fun _ => Except.ok "2024-01-01T00:00:00.000Z"
  , trackResp := Except.ok ()
  , noteResp := Except.ok noteOk }

theorem envMeta_verify :
    verifyShopifyWebhook secret0 (metaHmacHeader eventGood.headers) eventGood.body = true := by
  have hne : generatedHash secret0 body0 ≠ [] :=
    List.length_pos.mp (generatedHash_length_pos secret0 body0)
  have hh : metaHmacHeader eventGood.headers = some (generatedHash secret0 body0) := by
    have h1 : eventGood.headers "x-shopify-hmac-sha256" =
        some (generatedHash secret0 body0) := by simp [eventGood, goodHeaders]
    have h2 : eventGood.headers "X-Shopify-Hmac-Sha256" = none := by
      simp [eventGood, goodHeaders]
    rw [metaHmacHeader, h1, h2, jsOrHeader_some _ hne]
  rw [show eventGood.body = body0 from rfl, hh]
  exact verify_genHash secret0 body0

/- ===== Claims ===== -/

/-- C1 (code bug): in the non-PII metaobject variant, the handler derives
the order-based key "order_" ++ order id and passes it to the tracker, but
the Klaviyo payload built by trackKlaviyoEvent hardcodes the literal
profile external_id "order_5845762638078" (part_000 line 591) for every
order. On an inbound order with id 1 the tracked payload therefore carries
external_id "order_5845762638078", not "order_1". -/
theorem claim1_hardcoded_external_id :
    (∀ (nonPiiId : String) (eps : List EventProduct) (oid : Nat) (t : String),
       (klaviyoMetaPayload nonPiiId eps oid t).external_id = "order_5845762638078")
    ∧ (handlerMeta envMetaBase eventGood).2.filter isKlaviyoCall =
        [Step.klaviyoTrackMeta "order_5845762638078" "Event Product Purchased" 1
           "2024-01-01T00:00:00.000Z"]
    ∧ ("order_5845762638078" : String) ≠ "order_" ++ toString orderMeta.id := by
  refine ⟨fun _ _ _ _ => rfl, ?_, by decide⟩
  rw [handlerMeta_verified envMetaBase eventGood envMeta_verify]
  decide

/-- C2 counterexample: with a first line item whose lookups hit and a
failing scheduling-link creation call, the invocation returns 500 and the
second line item is never processed (no catalog call for product 202 is
issued), refuting that every per-item lookup failure is caught at the call
and never fails the invocation. -/
theorem claim2_counterexample :
    order2.line_items = some [liHit, liMiss]
    ∧ calHit envCreateFail liHit = true
    ∧ handlerCal envCreateFail eventGood =
        (resp500, [Step.parseBody, Step.catalog 101, Step.calendlyUser,
          Step.calendlyEventTypes,
          Step.calendlyCreateLink (some "a@b.c") (some "") (some "")
            "https://api.calendly.com/event_types/e1"])
    ∧ Step.catalog 202 ∉ (handlerCal envCreateFail eventGood).2 := by
  have h3 : handlerCal envCreateFail eventGood =
      (resp500, [Step.parseBody, Step.catalog 101, Step.calendlyUser,
        Step.calendlyEventTypes,
        Step.calendlyCreateLink (some "a@b.c") (some "") (some "")
          "https://api.calendly.com/event_types/e1"]) := by
    rw [handlerCal_verified envCreateFail eventGood eventGood_verify]
    decide
  refine ⟨rfl, by decide, h3, ?_⟩
  rw [h3]
  decide

/-- C2 amended: a failure of the catalog lookup or of the event-type
lookup for a line item is caught at the call, contributes nothing, and
processing of the remaining items and the pipeline continues (every item
still gets its catalog call and the invocation completes with 200); but a
failure of the per-unit scheduling-link creation call is rethrown and
makes the invocation fail with 500. -/
theorem claim2_amended :
    (∀ (env : CalEnv) (event : EventReq) (order : OrderVal) (items : List LineItem),
       verifyShopifyWebhook env.secret (event.headers "x-shopify-hmac-sha256")
         event.body = true →
       env.parseJson event.body = Except.ok order →
       order.line_items = some items →
       (∀ li ∈ items, calHit env li = false) →
       handlerCal env event =
         (resp200, Step.parseBody :: concatMap (missTraceCal env) items) ∧
       ∀ li ∈ items, Step.catalog li.product_id ∈ (handlerCal env event).2)
    ∧ (∀ (env : CalEnv) (event : EventReq) (order : OrderVal) (li : LineItem)
         (rest : List LineItem),
       verifyShopifyWebhook env.secret (event.headers "x-shopify-hmac-sha256")
         event.body = true →
       env.parseJson event.body = Except.ok order →
       order.line_items = some (li :: rest) →
       calHit env li = true → 0 < li.quantity →
       (∀ k, env.createLinkResp k = Except.error ()) →
       (handlerCal env event).1 = resp500) := by
  constructor
  · intro env event order items hv hp hli hmiss
    have heq := handlerCal_allMiss env event order items hv hp hli hmiss
    refine ⟨heq, ?_⟩
    intro li hli2
    rw [heq]
    exact List.mem_cons.mpr
      (Or.inr (mem_concatMap _ items li hli2 _ (by simp [missTraceCal])))
  · intro env event order li rest hv hp hli hhit hq hfail
    exact handlerCal_createfail env event order li rest hv hp hli hhit hq hfail

theorem claim2_amended_witness :
    (handlerCal envCreateFail eventGood).1 = resp500 :=
  claim2_amended.2 envCreateFail eventGood order2 liHit [liMiss] eventGood_verify rfl rfl
    (by decide) (by decide) (fun _ => rfl)

/-- C3 counterexample: the original variant returns 500 (not a tolerant
pass) on a verified payload lacking a customer object, and the
fallback-chain variant returns 500 (not an empty enrichment pass) on a
verified payload whose line-item array is missing. -/
theorem claim3_counterexample :
    orderNoCustomer.customer = none
    ∧ handlerOrig envNoCustomer eventGood = (resp500, [Step.parseBody])
    ∧ orderNoItems.line_items = none
    ∧ handlerCal envNoItems eventGood = (resp500, [Step.parseBody]) := by
  refine ⟨rfl, ?_, rfl, ?_⟩
  · exact handlerOrig_no_customer envNoCustomer eventGood orderNoCustomer
      eventGood_verify rfl rfl
  · exact handlerCal_no_line_items envNoItems eventGood orderNoItems
      eventGood_verify rfl rfl

/-- C3 amended: the fallback-chain variant and the metaobject variant
tolerate a payload without a customer object (with an empty line-item
array they complete an empty enrichment pass with 200 and no external
call); the original variant throws on the missing customer object and
returns 500; and in either Calendly or metaobject variant a payload whose
line-item array is missing (as opposed to empty) throws and returns 500. -/
theorem claim3_amended :
    (∀ (env : CalEnv) (event : EventReq) (order : OrderVal),
       verifyShopifyWebhook env.secret (event.headers "x-shopify-hmac-sha256")
         event.body = true →
       env.parseJson event.body = Except.ok order →
       order.customer = none → order.line_items = some [] →
       handlerCal env event = (resp200, [Step.parseBody]))
    ∧ (∀ (env : MetaEnv) (event : EventReq) (order : OrderVal),
       verifyShopifyWebhook env.secret (metaHmacHeader event.headers) event.body = true →
       env.parseJson event.body = Except.ok order →
       order.customer = none → order.line_items = some [] →
       handlerMeta env event = (resp200, [Step.parseBody]))
    ∧ (∀ (env : CalEnv) (event : EventReq) (order : OrderVal),
       verifyShopifyWebhook env.secret (event.headers "x-shopify-hmac-sha256")
         event.body = true →
       env.parseJson event.body = Except.ok order →
       order.customer = none →
       handlerOrig env event = (resp500, [Step.parseBody]))
    ∧ (∀ (env : CalEnv) (event : EventReq) (order : OrderVal),
       verifyShopifyWebhook env.secret (event.headers "x-shopify-hmac-sha256")
         event.body = true →
       env.parseJson event.body = Except.ok order →
       order.line_items = none →
       handlerCal env event = (resp500, [Step.parseBody]))
    ∧ (∀ (env : MetaEnv) (event : EventReq) (order : OrderVal),
       verifyShopifyWebhook env.secret (metaHmacHeader event.headers) event.body = true →
       env.parseJson event.body = Except.ok order →
       order.line_items = none →
       handlerMeta env event = (resp500, [Step.parseBody])) := by
  refine ⟨?_, ?_, ?_, ?_, ?_⟩
  · intro env event order hv hp _ hli
    exact handlerCal_empty_items env event order hv hp hli
  · intro env event order hv hp _ hli
    exact handlerMeta_empty_items env event order hv hp hli
  · intro env event order hv hp hc
    exact handlerOrig_no_customer env event order hv hp hc
  · intro env event order hv hp hli
    exact handlerCal_no_line_items env event order hv hp hli
  · intro env event order hv hp hli
    exact handlerMeta_no_line_items env event order hv hp hli

theorem claim3_amended_witness :
    handlerCal envNoCustomer eventGood = (resp200, [Step.parseBody]) :=
  claim3_amended.1 envNoCustomer eventGood orderNoCustomer eventGood_verify rfl rfl rfl

/-- C4: in the PII variant with the identity fallback chain, when the
extracted customer email is empty and the enrichment output is non-empty,
the Klaviyo tracking POST is skipped entirely, the order-note annotation is
still attempted (and the invocation completes with 200 when it succeeds):
the pipeline does not fail because of the missing identity. -/
theorem claim4_empty_email_skips_tracking :
    ∀ (env : CalEnv) (event : EventReq) (order : OrderVal) (items : List LineItem)
      (links : List SchedLink) (s2 : List Step) (nr : NoteResp) (ou : OrderUpdateResult),
      verifyShopifyWebhook env.secret (event.headers "x-shopify-hmac-sha256")
        event.body = true →
      env.parseJson event.body = Except.ok order →
      order.line_items = some items →
      calLineItemsLoop env (some (extractCustomerEmail order))
        (some (extractFirstName order)) (some (extractLastName order)) items
        [Step.parseBody] = (Except.ok links, s2) →
      0 < links.length →
      extractCustomerEmail order = "" →
      env.noteResp = Except.ok nr → nr.errors = none →
      nr.orderUpdate = some ou → ou.userErrors = [] →
      (handlerCal env event).1 = resp200 ∧
      (handlerCal env event).2.filter isKlaviyoCall = [] ∧
      (handlerCal env event).2.filter isNoteCall =
        [Step.shopifyNoteUpdate order.id (noteTextCal links)] := by
  intro env event order items links s2 nr ou hv hp hli hloop hlen hemail hnr hne hou hue
  obtain ⟨t, ht, hall⟩ := calLineItemsLoop_trace env (some (extractCustomerEmail order))
    (some (extractFirstName order)) (some (extractLastName order)) items [Step.parseBody]
  rw [hloop] at ht
  dsimp only at ht
  have heq := handlerCal_skipTrack env event order items links s2 nr ou hv hp hli hloop
    hlen hemail hnr hne hou hue
  rw [heq]
  have hK : t.filter isKlaviyoCall = [] :=
    filter_false_nil _ t (fun st hst => isEnrichStep_not_klaviyo st (hall st hst))
  have hN : t.filter isNoteCall = [] :=
    filter_false_nil _ t (fun st hst => isEnrichStep_not_note st (hall st hst))
  refine ⟨rfl, ?_, ?_⟩
  · rw [ht]
    simp [List.filter_append, hK, isKlaviyoCall, List.filter_cons]
  · rw [ht]
    simp [List.filter_append, hN, isNoteCall, List.filter_cons]

theorem claim4_witness :
    (handlerCal envNoEmail eventGood).1 = resp200 ∧
    (handlerCal envNoEmail eventGood).2.filter isKlaviyoCall = [] ∧
    (handlerCal envNoEmail eventGood).2.filter isNoteCall =
      [Step.shopifyNoteUpdate orderNoEmail.id (noteTextCal
        [⟨"Concert A (Ticket 1)", "https://calendly.com/d/link-0"⟩,
         ⟨"Concert A (Ticket 2)", "https://calendly.com/d/link-1"⟩])] :=
  claim4_empty_email_skips_tracking envNoEmail eventGood orderNoEmail [liHit]
    [⟨"Concert A (Ticket 1)", "https://calendly.com/d/link-0"⟩,
     ⟨"Concert A (Ticket 2)", "https://calendly.com/d/link-1"⟩]
    [Step.parseBody, Step.catalog 101, Step.calendlyUser, Step.calendlyEventTypes,
     Step.calendlyCreateLink (some "") (some "") (some "")
       "https://api.calendly.com/event_types/e1",
     Step.calendlyCreateLink (some "") (some "") (some "")
       "https://api.calendly.com/event_types/e1"]
    noteOk ⟨[]⟩ eventGood_verify rfl rfl (by decide) (by decide) rfl rfl rfl rfl rfl

/-- C5: the enrichment output iterates line items in payload order; a hit
contributes exactly quantity per-unit records (titled 1..quantity in the
Calendly variant) and a miss contributes nothing; the record count is at
most the sum of line-item quantities; and the concrete order with line
items [(qty 2, hit), (qty 1, miss)] yields exactly 2 records in unit
order, in both variants. -/
theorem claim5_enrichment_order_and_count :
    (∀ (env : MetaEnv) (items : List LineItem) (s : List Step),
       metaLineItemsLoop env items s =
         (Except.ok (metaEnrichmentSpec env items),
          s ++ items.map (fun li => Step.catalog li.product_id)))
    ∧ (∀ (env : MetaEnv) (items : List LineItem),
       (metaEnrichmentSpec env items).length ≤ sumQuantities items)
    ∧ (∀ (env : CalEnv) (em fn ln : Option String) (items : List LineItem)
         (s s2 : List Step) (links : List SchedLink),
       calLineItemsLoop env em fn ln items s = (Except.ok links, s2) →
       links.map SchedLink.title = calTitlesSpec env items ∧
       links.length ≤ sumQuantities items)
    ∧ metaEnrichmentSpec envMetaBase [⟨7, 2, "A"⟩, ⟨8, 1, "B"⟩] =
        [⟨some "Gala", none, some "1 Main St", none, none, none, none, "A"⟩,
         ⟨some "Gala", none, some "1 Main St", none, none, none, none, "A"⟩]
    ∧ calLineItemsLoop envCalBase (some "a@b.c") (some "") (some "") [liHit, liMiss] [] =
        (Except.ok [⟨"Concert A (Ticket 1)", "https://calendly.com/d/link-0"⟩,
                    ⟨"Concert A (Ticket 2)", "https://calendly.com/d/link-1"⟩],
         [Step.catalog 101, Step.calendlyUser, Step.calendlyEventTypes,
          Step.calendlyCreateLink (some "a@b.c") (some "") (some "")
            "https://api.calendly.com/event_types/e1",
          Step.calendlyCreateLink (some "a@b.c") (some "") (some "")
            "https://api.calendly.com/event_types/e1",
          Step.catalog 202]) := by
  refine ⟨metaLineItemsLoop_apply, metaEnrichmentSpec_length_le, ?_, by decide, by decide⟩
  intro env em fn ln items s s2 links h
  have ht := calLineItemsLoop_ok_titles env em fn ln items s s2 links h
  refine ⟨ht, ?_⟩
  calc links.length = (links.map SchedLink.title).length := by simp
    _ = (calTitlesSpec env items).length := by rw [ht]
    _ ≤ sumQuantities items := calTitlesSpec_length_le env items

theorem claim5_witness :
    ([⟨"Concert A (Ticket 1)", "https://calendly.com/d/link-0"⟩,
      ⟨"Concert A (Ticket 2)", "https://calendly.com/d/link-1"⟩] : List SchedLink).map
        SchedLink.title = calTitlesSpec envCalBase [liHit, liMiss] ∧
    ([⟨"Concert A (Ticket 1)", "https://calendly.com/d/link-0"⟩,
      ⟨"Concert A (Ticket 2)", "https://calendly.com/d/link-1"⟩] : List SchedLink).length ≤
      sumQuantities [liHit, liMiss] :=
  claim5_enrichment_order_and_count.2.2.1 envCalBase (some "a@b.c") (some "") (some "")
    [liHit, liMiss] []
    [Step.catalog 101, Step.calendlyUser, Step.calendlyEventTypes,
     Step.calendlyCreateLink (some "a@b.c") (some "") (some "")
       "https://api.calendly.com/event_types/e1",
     Step.calendlyCreateLink (some "a@b.c") (some "") (some "")
       "https://api.calendly.com/event_types/e1",
     Step.catalog 202]
    [⟨"Concert A (Ticket 1)", "https://calendly.com/d/link-0"⟩,
     ⟨"Concert A (Ticket 2)", "https://calendly.com/d/link-1"⟩]
    (by decide)

/-- C6: if the order-note mutation returns a truthy GraphQL errors value or
a non-empty userErrors array, the annotator rethrows and the invocation
returns the fatal 500 response, even though the preceding tracker POST had
already been issued and had succeeded. -/
theorem claim6_note_errors_fail_invocation :
    ∀ (env : CalEnv) (event : EventReq) (order : OrderVal) (items : List LineItem)
      (links : List SchedLink) (s2 : List Step) (nr : NoteResp),
      verifyShopifyWebhook env.secret (event.headers "x-shopify-hmac-sha256")
        event.body = true →
      env.parseJson event.body = Except.ok order →
      order.line_items = some items →
      calLineItemsLoop env (some (extractCustomerEmail order))
        (some (extractFirstName order)) (some (extractLastName order)) items
        [Step.parseBody] = (Except.ok links, s2) →
      0 < links.length →
      extractCustomerEmail order ≠ "" →
      env.trackResp = Except.ok () →
      env.noteResp = Except.ok nr →
      ((∃ es, nr.errors = some es ∧ es ≠ []) ∨
        ∃ ou, nr.orderUpdate = some ou ∧ ou.userErrors ≠ []) →
      (∀ s, (addNoteToShopifyOrderCal env order.id links s).1 = Except.error ()) ∧
      (handlerCal env event).1 = resp500 ∧
      Step.klaviyoTrack (extractCustomerEmail order) (extractFirstName order)
        (extractLastName order) order.id ∈ (handlerCal env event).2 := by
  intro env event order items links s2 nr hv hp hli hloop hlen hemail htrack hnr hbad
  have hbad2 : nr.errors.isSome = true ∨ nr.orderUpdate = none ∨
      ∃ ou, nr.orderUpdate = some ou ∧ 0 < ou.userErrors.length := by
    rcases hbad with ⟨es, hes, _⟩ | ⟨ou, hou, hne⟩
    · exact Or.inl (by rw [hes]; rfl)
    · exact Or.inr (Or.inr ⟨ou, hou, List.length_pos.mpr hne⟩)
  have heq := handlerCal_noteFail env event order items links s2 nr hv hp hli hloop hlen
    hemail htrack hnr hbad2
  refine ⟨?_, ?_, ?_⟩
  · intro s
    rw [addNoteToShopifyOrderCal_fail env order.id links s nr hnr hbad2]
  · rw [heq]
  · rw [heq]
    simp

theorem claim6_witness :
    (∀ s, (addNoteToShopifyOrderCal envNoteFail order2.id
        [⟨"Concert A (Ticket 1)", "https://calendly.com/d/link-0"⟩,
         ⟨"Concert A (Ticket 2)", "https://calendly.com/d/link-1"⟩] s).1 =
      Except.error ()) ∧
    (handlerCal envNoteFail eventGood).1 = resp500 ∧
    Step.klaviyoTrack (extractCustomerEmail order2) (extractFirstName order2)
      (extractLastName order2) order2.id ∈ (handlerCal envNoteFail eventGood).2 :=
  claim6_note_errors_fail_invocation envNoteFail eventGood order2 [liHit, liMiss]
    [⟨"Concert A (Ticket 1)", "https://calendly.com/d/link-0"⟩,
     ⟨"Concert A (Ticket 2)", "https://calendly.com/d/link-1"⟩]
    [Step.parseBody, Step.catalog 101, Step.calendlyUser, Step.calendlyEventTypes,
     Step.calendlyCreateLink (some "a@b.c") (some "") (some "")
       "https://api.calendly.com/event_types/e1",
     Step.calendlyCreateLink (some "a@b.c") (some "") (some "")
       "https://api.calendly.com/event_types/e1",
     Step.catalog 202]
    noteBadErrors eventGood_verify rfl rfl (by decide) (by decide) (by decide) rfl rfl
    (Or.inl ⟨["shop is locked"], rfl, by decide⟩)

/-- C7: when signature verification fails, all three handlers return the
401 response immediately with an empty step trace: the body is not parsed
and no external call of any kind is issued. -/
theorem claim7_unauthorized_short_circuit :
    (∀ (env : CalEnv) (event : EventReq),
       verifyShopifyWebhook env.secret (event.headers "x-shopify-hmac-sha256")
         event.body = false →
       handlerCal env event = (resp401, []))
    ∧ (∀ (env : CalEnv) (event : EventReq),
       verifyShopifyWebhook env.secret (event.headers "x-shopify-hmac-sha256")
         event.body = false →
       handlerOrig env event = (resp401, []))
    ∧ (∀ (env : MetaEnv) (event : EventReq),
       verifyShopifyWebhook env.secret (metaHmacHeader event.headers) event.body = false →
       handlerMeta env event = (resp401, [])) := by
  refine ⟨?_, ?_, ?_⟩
  · intro env event hv
    simp [handlerCal, hv]
  · intro env event hv
    simp [handlerOrig, hv]
  · intro env event hv
    simp [handlerMeta, hv]

theorem claim7_witness : handlerMeta envMetaBase eventNoHeader = (resp401, []) :=
  claim7_unauthorized_short_circuit.2.2 envMetaBase eventNoHeader rfl

/-- C8: every invocation of any of the three handlers returns exactly one
of the responses 200, 401 or 500 (the embedding is total, so no exception
escapes); and a body that fails JSON parsing after successful signature
verification produces the 500 response rather than a crash. -/
theorem claim8_response_surface :
    (∀ (env : CalEnv) (event : EventReq),
       (handlerCal env event).1 = resp200 ∨ (handlerCal env event).1 = resp401 ∨
         (handlerCal env event).1 = resp500)
    ∧ (∀ (env : CalEnv) (event : EventReq),
       (handlerOrig env event).1 = resp200 ∨ (handlerOrig env event).1 = resp401 ∨
         (handlerOrig env event).1 = resp500)
    ∧ (∀ (env : MetaEnv) (event : EventReq),
       (handlerMeta env event).1 = resp200 ∨ (handlerMeta env event).1 = resp401 ∨
         (handlerMeta env event).1 = resp500)
    ∧ (∀ (env : CalEnv) (event : EventReq),
       verifyShopifyWebhook env.secret (event.headers "x-shopify-hmac-sha256")
         event.body = true →
       env.parseJson event.body = Except.error () →
       handlerCal env event = (resp500, [Step.parseBody]))
    ∧ (∀ (env : MetaEnv) (event : EventReq),
       verifyShopifyWebhook env.secret (metaHmacHeader event.headers) event.body = true →
       env.parseJson event.body = Except.error () →
       handlerMeta env event = (resp500, [Step.parseBody])) :=
  ⟨handlerCal_status, handlerOrig_status, handlerMeta_status,
   handlerCal_parse_error, handlerMeta_parse_error⟩

theorem claim8_witness : handlerCal envParseFail eventGood = (resp500, [Step.parseBody]) :=
  claim8_response_surface.2.2.2.1 envParseFail eventGood eventGood_verify rfl

/-- C9 counterexample: the two one-element body strings built from the
code units 55296 and 55297 differ in exactly one bit (bit 0), yet both are
unpaired surrogates that Node serializes to the same UTF-8 bytes
(239 191 189), so the digest computed over the mutated body equals the
original digest and verification of the original header against the
mutated body returns true - refuting that every single-bit body mutation
is rejected. -/
theorem claim9_counterexample :
    flipBit [55296] 0 0 = [55297]
    ∧ ([55297] : CodeUnits) ≠ [55296]
    ∧ utf16ToUtf8 [55297] = utf16ToUtf8 [55296]
    ∧ verifyShopifyWebhook secret0 (some (generatedHash secret0 [55296])) [55297] = true := by
  refine ⟨by decide, by decide, by decide, ?_⟩
  exact verify_utf8_equal secret0 [55296] [55297] (by decide)

/-- C9 amended: verification of the header produced by HMAC-SHA256 over
the exact body under the same secret returns true for every secret and
body; any single-bit mutation of the claimed header makes verification
return false; a single-bit mutation of the body is not always rejected -
whenever the mutated body has the same UTF-8 serialization as the
original (unpaired-surrogate code units), verification still accepts it. -/
theorem claim9_amended :
    (∀ secret body : CodeUnits,
       verifyShopifyWebhook secret (some (generatedHash secret body)) body = true)
    ∧ (∀ (secret body : CodeUnits) (i b : Nat),
       i < (generatedHash secret body).length → b < 16 →
       verifyShopifyWebhook secret (some (flipBit (generatedHash secret body) i b)) body
         = false)
    ∧ (∀ secret body body2 : CodeUnits,
       utf16ToUtf8 body2 = utf16ToUtf8 body →
       verifyShopifyWebhook secret (some (generatedHash secret body)) body2 = true) := by
  refine ⟨verify_genHash, ?_, verify_utf8_equal⟩
  intro secret body i b hi _
  exact verify_flipBit_false secret body i b hi

theorem claim9_amended_witness :
    verifyShopifyWebhook secret0
      (some (flipBit (generatedHash secret0 body0) 0 0)) body0 = false :=
  claim9_amended.2.1 secret0 body0 0 0 (generatedHash_length_pos secret0 body0) (by decide)

/-- C10: an absent signature header is compared (as undefined) against the
computed digest, verification returns false without throwing and the
handlers respond 401 with no processing; the Calendly handlers consult only
the lowercase header key, while the metaobject handler also accepts the
capitalized spelling and proceeds past verification when only that key
carries the correct signature. -/
theorem claim10_missing_header :
    (∀ secret body : CodeUnits, verifyShopifyWebhook secret none body = false)
    ∧ (∀ (env : CalEnv) (event : EventReq),
       event.headers "x-shopify-hmac-sha256" = none →
       handlerCal env event = (resp401, []) ∧ handlerOrig env event = (resp401, []))
    ∧ (∀ (env : MetaEnv) (event : EventReq),
       event.headers "x-shopify-hmac-sha256" = none →
       event.headers "X-Shopify-Hmac-Sha256" = none →
       handlerMeta env event = (resp401, []))
    ∧ (∀ (env : CalEnv) (h1 h2 : String → Option CodeUnits) (body : CodeUnits),
       h1 "x-shopify-hmac-sha256" = h2 "x-shopify-hmac-sha256" →
       handlerCal env ⟨h1, body⟩ = handlerCal env ⟨h2, body⟩ ∧
       handlerOrig env ⟨h1, body⟩ = handlerOrig env ⟨h2, body⟩)
    ∧ (∀ (env : MetaEnv) (event : EventReq),
       event.headers "x-shopify-hmac-sha256" = none →
       event.headers "X-Shopify-Hmac-Sha256" =
         some (generatedHash env.secret event.body) →
       handlerMeta env event =
         (match handlerMetaAfterVerify env event [] with
          | (Except.ok r, s) => (r, s)
          | (Except.error _, s) => (resp500, s))) := by
  refine ⟨fun _ _ => rfl, ?_, ?_, ?_, ?_⟩
  · intro env event hh
    constructor
    · simp [handlerCal, hh, verifyShopifyWebhook]
    · simp [handlerOrig, hh, verifyShopifyWebhook]
  · intro env event h1 h2
    simp [handlerMeta, metaHmacHeader, h1, h2, jsOrHeader, verifyShopifyWebhook]
  · intro env h1 h2 body hh
    have hca : handlerCalAfterVerify env ⟨h1, body⟩ = handlerCalAfterVerify env ⟨h2, body⟩ :=
      rfl
    have hoa : handlerOrigAfterVerify env ⟨h1, body⟩ = handlerOrigAfterVerify env ⟨h2, body⟩ :=
      rfl
    constructor
    · simp only [handlerCal, hh, hca]
    · simp only [handlerOrig, hh, hoa]
  · intro env event h1 h2
    have hh : metaHmacHeader event.headers = some (generatedHash env.secret event.body) := by
      rw [metaHmacHeader, h1, h2]
      rfl
    exact handlerMeta_verified env event (by rw [hh]; exact verify_genHash _ _)

theorem claim10_witness :
    handlerCal envCalBase eventNoHeader = (resp401, []) ∧
    handlerOrig envCalBase eventNoHeader = (resp401, []) :=
  claim10_missing_header.2.1 envCalBase eventNoHeader rfl
